import Mathlib

/-!
Verification of the checkDK analysis pipeline (Docker Compose / Kubernetes
configuration checker) against its natural-language specification.

The Python source is shallowly embedded: text is `List Char` (so that Python
string operations become list operations), parsed YAML trees are the nested
inductive `Yaml`, Python `dict`s are association lists in insertion order,
and code that can raise an uncaught exception runs in `Except Str`
(the error value names the Python exception class).  External effects are
parameters: the process environment is `Str -> Option Str`, the live-port
probe is `Int -> Bool`, the process table is `Int -> Option PInfo`, and the
AI provider is an optional oracle `Issue -> Option AiResult` (`none` models a
raised exception inside the provider call).
-/

namespace CheckDK

/-- Text is modelled as a list of characters. -/
abbrev Str := List Char

/-- Shorthand turning a Lean string literal into `Str`. -/
def txt (s : String) : Str := s.data

/-- The characters stripped by Python `str.strip()` with no argument. -/
def pyWs (c : Char) : Bool :=
  c = ' ' || c = '\t' || c = '\n' || c = '\r' || c = '\x0b' || c = '\x0c'

/-- Python `s.lstrip()`. -/
def pyStripL (s : Str) : Str := s.dropWhile pyWs

/-- Python `s.rstrip()`. -/
def pyStripR (s : Str) : Str := (s.reverse.dropWhile pyWs).reverse

/-- Python `s.strip()`. -/
def pyStrip (s : Str) : Str := pyStripR (pyStripL s)

/-- Python `s.lower()` (ASCII case folding suffices for the texts involved). -/
def pyLower (s : Str) : Str := s.map Char.toLower

/-- Python `s.lstrip(chars)`: drop leading characters belonging to `cs`. -/
def pyLStripSet (cs : Str) (s : Str) : Str := s.dropWhile (fun c => c ∈ cs)

/-- Python `s.split(sep)` for a one-character separator: splits at every
occurrence and keeps empty pieces. -/
def pySplitChar (sep : Char) : Str → List Str
  | [] => [[]]
  | c :: rest =>
    if c = sep then [] :: pySplitChar sep rest
    else
      match pySplitChar sep rest with
      | [] => [[c]]
      | p :: ps => (c :: p) :: ps

/-- Python `s.split(sep)[0]`: the text before the first occurrence of the
character `sep` (the whole text when `sep` does not occur). -/
def takeBefore (sep : Char) (s : Str) : Str := s.takeWhile (fun c => c ≠ sep)

/-- Python `s.split(sep, 1)` for a multi-character separator: the text before
and after the first occurrence, or `none` when `sep` does not occur. -/
def splitOnce (sep : Str) : Str → Option (Str × Str)
  | [] => if sep = [] then some ([], []) else none
  | c :: rest =>
    if sep.isPrefixOf (c :: rest) then some ([], (c :: rest).drop sep.length)
    else (splitOnce sep rest).map (fun p => (c :: p.1, p.2))

/-- Python substring test `needle in hay`. -/
def containsSub (needle : Str) : Str → Bool
  | [] => needle.isPrefixOf []
  | c :: rest => needle.isPrefixOf (c :: rest) || containsSub needle rest

/-- Value of a list of decimal digits. -/
def digitsVal (ds : Str) : Nat :=
  ds.foldl (fun a c => a * 10 + (c.toNat - '0'.toNat)) 0

/-- Python `int(s)` restricted to optional sign plus decimal digits
(`ValueError` is `none`).  Underscore digit grouping is not modelled; no
input in this development uses it. -/
def pyInt (s : Str) : Option Int :=
  let t := pyStrip s
  match t with
  | '-' :: ds => if ds ≠ [] ∧ ds.all Char.isDigit then some (-(digitsVal ds : Int)) else none
  | '+' :: ds => if ds ≠ [] ∧ ds.all Char.isDigit then some (digitsVal ds : Int) else none
  | ds => if ds ≠ [] ∧ ds.all Char.isDigit then some (digitsVal ds : Int) else none

/-- Python `str(n)` for an integer. -/
def intToStr (n : Int) : Str := (toString n).data

/-- Join a list of texts with a separator, Python `sep.join(xs)` style. -/
def joinSep (sep : Str) : List Str → Str
  | [] => []
  | [x] => x
  | x :: xs => x ++ sep ++ joinSep sep xs

/-! ## Parsed YAML values

`Yaml` covers the value shapes produced by `yaml.safe_load` that the
program's code paths distinguish: strings, integers, booleans, null,
sequences and mappings (in document order).  Python `bool` being a subtype
of `int` is modelled where the source does an `isinstance(x, int)` check. -/

inductive Yaml where
  | str (s : Str)
  | int (n : Int)
  | bool (b : Bool)
  | null
  | list (xs : List Yaml)
  | dict (kvs : List (Str × Yaml))

/-- First binding of a key in a mapping (Python `dict` lookup; keys produced
by `yaml.safe_load` are unique). -/
def ydFind : List (Str × Yaml) → Str → Option Yaml
  | [], _ => none
  | (k, v) :: tl, key => if k = key then some v else ydFind tl key

/-- Python truthiness of a parsed YAML value. -/
def yTruthy : Yaml → Bool
  | .str s => s ≠ []
  | .int n => n ≠ 0
  | .bool b => b
  | .null => false
  | .list xs => !xs.isEmpty
  | .dict kvs => !kvs.isEmpty

/-- Whether the value is a mapping (Python `isinstance(x, dict)`). -/
def yIsDict : Yaml → Bool
  | .dict _ => true
  | _ => false

/-- Python `x.get(key)`: defined on mappings, `AttributeError` otherwise. -/
def yGet (y : Yaml) (k : Str) : Except Str (Option Yaml) :=
  match y with
  | .dict kvs => .ok (ydFind kvs k)
  | _ => .error (txt "AttributeError")

/-- Python `x.get(key, default)`. -/
def yGetD (y : Yaml) (k : Str) (d : Yaml) : Except Str Yaml :=
  (yGet y k).map (fun o => o.getD d)

/-- Python `for v in x`: lists iterate elements, strings iterate one-character
strings, mappings iterate their keys; other values raise `TypeError`. -/
def pyIter (y : Yaml) : Except Str (List Yaml) :=
  match y with
  | .list xs => .ok xs
  | .str s => .ok (s.map (fun c => .str [c]))
  | .dict kvs => .ok (kvs.map (fun kv => Yaml.str kv.1))
  | _ => .error (txt "TypeError")

mutual
/-- Python `str(x)` of a parsed YAML value (container rendering follows
`repr`; string escaping inside `repr` is not reproduced, no claim consumes
it). -/
def pyStr : Yaml → Str
  | .str s => s
  | .int n => intToStr n
  | .bool b => if b then txt "True" else txt "False"
  | .null => txt "None"
  | .list xs => '[' :: joinSep (txt ", ") (pyReprL xs) ++ [']']
  | .dict kvs => '\x7b' :: joinSep (txt ", ") (pyReprD kvs) ++ ['\x7d']

/-- Python `repr(x)` of a parsed YAML value (approximate for strings: single
quotes, no escaping). -/
def pyRepr : Yaml → Str
  | .str s => '\'' :: s ++ ['\'']
  | .int n => intToStr n
  | .bool b => if b then txt "True" else txt "False"
  | .null => txt "None"
  | .list xs => '[' :: joinSep (txt ", ") (pyReprL xs) ++ [']']
  | .dict kvs => '\x7b' :: joinSep (txt ", ") (pyReprD kvs) ++ ['\x7d']

def pyReprL : List Yaml → List Str
  | [] => []
  | y :: ys => pyRepr y :: pyReprL ys

def pyReprD : List (Str × Yaml) → List Str
  | [] => []
  | (k, v) :: tl => ('\'' :: k ++ '\'' :: txt ": " ++ pyRepr v) :: pyReprD tl
end

/-! ## Data model (`models.py`) -/

/-- `Severity` from `models.py`. -/
inductive Severity where
  | critical
  | warning
  | info
deriving DecidableEq

/-- `IssueType` from `models.py`. -/
inductive IssueType where
  | port_conflict
  | missing_image
  | resource_limit
  | resource_limits
  | image_version
  | invalid_yaml
  | missing_env_var
  | volume_mount
  | network_config
  | service_dependency
  | security_issue
  | health_check
  | label_mismatch
deriving DecidableEq

/-- Process information as assembled by
`PortValidator._get_process_using_port` (the `cmdline` key is absent on the
access-denied path). -/
structure PInfo where
  pid : Int
  name : Str
  cmdline : Option Str
deriving DecidableEq

/-- A value stored in `Issue.details` (Python `Dict[str, Any]`): the
validators store strings, ints, lists of strings, raw YAML values, `None`,
and the process-info mapping. -/
inductive Dval where
  | s (v : Str)
  | i (v : Int)
  | sl (v : List Str)
  | y (v : Yaml)
  | nil
  | pinfo (v : PInfo)

/-- The details mapping of an `Issue`, in insertion order. -/
abbrev Details := List (Str × Dval)

/-- Lookup in a details mapping (Python `dict.get`). -/
def dfind : Details → Str → Option Dval
  | [], _ => none
  | (k, v) :: tl, key => if k = key then some v else dfind tl key

/-- Python truthiness of a detail value (`None` and empty containers are
falsy; the process-info mapping is a non-empty dict, hence truthy). -/
def dTruthy : Dval → Bool
  | .s v => v ≠ []
  | .i v => v ≠ 0
  | .sl v => !v.isEmpty
  | .y v => yTruthy v
  | .nil => false
  | .pinfo _ => true

/-- Python f-string rendering of a detail value. -/
def dvalStr : Dval → Str
  | .s v => v
  | .i v => intToStr v
  | .sl v => '[' :: joinSep (txt ", ") (v.map (fun x => '\'' :: x ++ ['\''])) ++ [']']
  | .y v => pyStr v
  | .nil => txt "None"
  | .pinfo p =>
    '\x7b' :: txt "'pid': " ++ intToStr p.pid ++ txt ", 'name': '" ++ p.name ++ ['\'']
      ++ (match p.cmdline with
          | some c => txt ", 'cmdline': '" ++ c ++ ['\'']
          | none => []) ++ ['\x7d']

/-- Rendering of `details.get(key)`, whose result may be Python `None`. -/
def dShow (o : Option Dval) : Str :=
  match o with
  | some d => dvalStr d
  | none => txt "None"

/-- Rendering of an `Optional[str]` in an f-string (Python prints `None`). -/
def optShow (o : Option Str) : Str :=
  match o with
  | some s => s
  | none => txt "None"

/-- `Issue` from `models.py`. -/
structure Issue where
  type : IssueType
  severity : Severity
  message : Str
  file_path : Option Str := none
  line_number : Option Int := none
  service_name : Option Str := none
  details : Details := []

/-- `Fix` from `models.py`. -/
structure Fix where
  description : Str
  steps : List Str
  code_snippet : Option Str := none
  auto_applicable : Bool := false
  explanation : Option Str := none
  root_cause : Option Str := none

/-- `AnalysisResult` from `models.py`. -/
structure AnalysisResult where
  success : Bool
  issues : List Issue := []
  fixes : List Fix := []
  warnings : List Str := []

/-- `DockerComposeConfig` from `models.py` (service/network/volume mappings
in document order). -/
structure DockerComposeConfig where
  version : Option Yaml := none
  services : List (Str × Yaml) := []
  networks : List (Str × Yaml) := []
  volumes : List (Str × Yaml) := []
  raw_config : Yaml := .dict []

/-! ## Config loader (`parsers/docker_compose.py`) -/

mutual
/-- `DockerComposeParser._resolve_env_vars`, acting on one parsed value and
returning the rewritten value together with the issues appended while
visiting it (in visit order).  `env` is `os.getenv`. -/
def resolve_env_vars (env : Str → Option Str) : Yaml → Yaml × List Issue
  | .str s =>
    if (txt "$\x7b").isPrefixOf s ∧ s.getLast? = some '\x7d' then
      let inner := (s.drop 2).dropLast
      let nd : Str × Option Str :=
        match splitOnce (txt ":-") inner with
        | some (n, d) => (n, some d)
        | none => (inner, none)
      let value : Option Str :=
        match env nd.1 with
        | some v => some v
        | none => nd.2
      match value with
      | none =>
        (.str s,
         [{ type := .missing_env_var, severity := .warning,
            message := txt "Environment variable not set: " ++ nd.1,
            details := [(txt "variable", .s nd.1)] }])
      | some v => (if v = [] then .str s else .str v, [])
    else (.str s, [])
  | .int n => (.int n, [])
  | .bool b => (.bool b, [])
  | .null => (.null, [])
  | .list xs =>
    let r := resolve_env_vars_list env xs
    (.list r.1, r.2)
  | .dict kvs =>
    let r := resolve_env_vars_dict env kvs
    (.dict r.1, r.2)

def resolve_env_vars_list (env : Str → Option Str) : List Yaml → List Yaml × List Issue
  | [] => ([], [])
  | y :: ys =>
    let r := resolve_env_vars env y
    let rs := resolve_env_vars_list env ys
    (r.1 :: rs.1, r.2 ++ rs.2)

def resolve_env_vars_dict (env : Str → Option Str) :
    List (Str × Yaml) → List (Str × Yaml) × List Issue
  | [] => ([], [])
  | (k, v) :: tl =>
    let r := resolve_env_vars env v
    let rs := resolve_env_vars_dict env tl
    ((k, r.1) :: rs.1, r.2 ++ rs.2)
end

/-- `DockerComposeParser._validate_structure` (run on the parsed services
mapping; `fp` is the file path used in messages). -/
def validate_structure (fp : Str) (services : List (Str × Yaml)) : List Issue :=
  if services.isEmpty then
    [{ type := .invalid_yaml, severity := .critical,
       message := txt "No services defined in Docker Compose file",
       file_path := some fp }]
  else
    services.flatMap (fun kv =>
      match kv.2 with
      | .dict svc =>
        if (ydFind svc (txt "image")).isNone ∧ (ydFind svc (txt "build")).isNone then
          [{ type := .invalid_yaml, severity := .critical,
             message := txt "Service '" ++ kv.1 ++ txt "' must specify 'image' or 'build'",
             service_name := some kv.1, file_path := some fp }]
        else []
      | _ =>
        [{ type := .invalid_yaml, severity := .critical,
           message := txt "Service '" ++ kv.1 ++ txt "' configuration must be a dictionary",
           service_name := some kv.1, file_path := some fp }])

/-- Outcome of opening and `yaml.safe_load`-ing the Compose file, the
effectful head of `DockerComposeParser.parse`: the file may be absent, the
YAML reader may raise, some other exception may occur while reading, or a
parsed document is produced. -/
inductive ComposeInput where
  | missingFile
  | yamlError (msg : Str)
  | otherError (msg : Str)
  | loaded (root : Yaml)

/-- Key lookup expecting a mapping value: `none` models a pydantic
`ValidationError` for a `Dict[str, Any]` field, mapping keys are returned,
an absent key yields the empty mapping (the `.get(key, {})` default). -/
def getDictD (kvs : List (Str × Yaml)) (k : Str) : Option (List (Str × Yaml)) :=
  match ydFind kvs k with
  | none => some []
  | some (.dict d) => some d
  | some _ => none

/-- `DockerComposeParser.parse`: produces the parsed config together with
the parser's accumulated `issues` list.  `fp` is the file path (used in
messages), `env` is `os.getenv`.  The exact text of a caught unexpected
exception is not reproduced; its message tail is the abstract token
`validation error`. -/
def DockerComposeParser.parse (fp : Str) (env : Str → Option Str)
    (input : ComposeInput) : DockerComposeConfig × List Issue :=
  match input with
  | .missingFile =>
    ({}, [{ type := .invalid_yaml, severity := .critical,
            message := txt "Docker Compose file not found: " ++ fp,
            file_path := some fp }])
  | .yamlError m =>
    ({}, [{ type := .invalid_yaml, severity := .critical,
            message := txt "YAML parsing error: " ++ m,
            file_path := some fp }])
  | .otherError m =>
    ({}, [{ type := .invalid_yaml, severity := .critical,
            message := txt "Unexpected error parsing file: " ++ m,
            file_path := some fp }])
  | .loaded root =>
    match root with
    | .dict kvs =>
      let rd := resolve_env_vars_dict env kvs
      let resolved := rd.1
      let envIssues := rd.2
      match getDictD resolved (txt "services"), getDictD resolved (txt "networks"),
            getDictD resolved (txt "volumes") with
      | some services, some networks, some volumes =>
        let config : DockerComposeConfig :=
          { version := ydFind resolved (txt "version"),
            services := services, networks := networks, volumes := volumes,
            raw_config := .dict resolved }
        (config, envIssues ++ validate_structure fp services)
      | _, _, _ =>
        ({}, envIssues ++
          [{ type := .invalid_yaml, severity := .critical,
             message := txt "Unexpected error parsing file: " ++ txt "validation error",
             file_path := some fp }])
    | _ =>
      ({}, [{ type := .invalid_yaml, severity := .critical,
              message := txt "Invalid Docker Compose file: root must be a dictionary",
              file_path := some fp }])

/-! ## Port validator (`validators/port_validator.py`)

The live-system effects are parameters: `portInUse` is
`PortValidator._is_port_in_use` and `procOf` is
`PortValidator._get_process_using_port` (`none` = owner not resolved). -/

/-- `PortValidator._extract_host_port`.  A Python `bool` passes the
`isinstance(x, int)` check with `True == 1`, `False == 0`; `int()` applied
to a list or mapping raises `TypeError` (only `ValueError` is caught). -/
def PortValidator.extract_host_port (m : Yaml) : Except Str (Option Int) :=
  match m with
  | .int n => .ok (some n)
  | .bool b => .ok (some (if b then 1 else 0))
  | .str s => .ok (pyInt (takeBefore ':' s))
  | .dict kvs =>
    match ydFind kvs (txt "published") with
    | some v =>
      if yTruthy v then
        match v with
        | .int n => .ok (some n)
        | .bool _ => .ok (some 1)
        | .str s => .ok (pyInt s)
        | _ => .error (txt "TypeError")
      else .ok none
    | none => .ok none
  | .list _ => .ok none
  | .null => .ok none

/-- Lookup in the `used_ports` mapping (host port → first claiming
service). -/
def plookup : List (Int × Str) → Int → Option Str
  | [], _ => none
  | (k, v) :: tl, key => if k = key then some v else plookup tl key

/-- The inner loop of `PortValidator.validate`: process one service's port
mappings, threading the `used_ports` mapping and emitting issues in
program order (duplicate check before the live-port check, per mapping). -/
def PortValidator.processPorts (portInUse : Int → Bool) (procOf : Int → Option PInfo)
    (name : Str) : List Yaml → List (Int × Str) → Except Str (List Issue × List (Int × Str))
  | [], used => .ok ([], used)
  | m :: ms, used => do
    let hp ← PortValidator.extract_host_port m
    match hp with
    | none => PortValidator.processPorts portInUse procOf name ms used
    | some p =>
      let dupIssues : List Issue :=
        match plookup used p with
        | some owner =>
          [{ type := .port_conflict, severity := .critical,
             message := txt "Port " ++ intToStr p ++ txt " is used by multiple services: '"
               ++ owner ++ txt "' and '" ++ name ++ ['\''],
             service_name := some name,
             details := [(txt "port", .i p), (txt "conflicting_service", .s owner)] }]
        | none => []
      let used' : List (Int × Str) :=
        match plookup used p with
        | some _ => used
        | none => used ++ [(p, name)]
      let inUseIssues : List Issue :=
        if portInUse p then
          [{ type := .port_conflict, severity := .critical,
             message := txt "Port " ++ intToStr p ++ txt " on service '" ++ name
               ++ txt "' is already in use"
               ++ (match procOf p with
                   | some info => txt " by " ++ info.name ++ txt " (PID "
                       ++ intToStr info.pid ++ [')']
                   | none => []),
             service_name := some name,
             details := [(txt "port", .i p),
                         (txt "process",
                          match procOf p with
                          | some info => .pinfo info
                          | none => .nil)] }]
        else []
      let rest ← PortValidator.processPorts portInUse procOf name ms used'
      .ok (dupIssues ++ inUseIssues ++ rest.1, rest.2)

/-- The outer loop of `PortValidator.validate` over the services mapping. -/
def PortValidator.validateGo (portInUse : Int → Bool) (procOf : Int → Option PInfo) :
    List (Str × Yaml) → List (Int × Str) → Except Str (List Issue)
  | [], _ => .ok []
  | (name, sv) :: rest, used =>
    match sv with
    | .dict svc => do
      let ms ← pyIter ((ydFind svc (txt "ports")).getD (.list []))
      let r ← PortValidator.processPorts portInUse procOf name ms used
      let more ← PortValidator.validateGo portInUse procOf rest r.2
      .ok (r.1 ++ more)
    | _ => PortValidator.validateGo portInUse procOf rest used

/-- `PortValidator.validate`. -/
def PortValidator.validate (portInUse : Int → Bool) (procOf : Int → Option PInfo)
    (services : List (Str × Yaml)) : Except Str (List Issue) :=
  PortValidator.validateGo portInUse procOf services []

/-- `PortValidator.generate_fix`.  `port + 1` raises `TypeError` unless the
`port` detail is an int; reading `.get('name')` from a truthy non-mapping
`process` detail raises `AttributeError`. -/
def PortValidator.generate_fix (issue : Issue) : Except Str Fix := do
  let port := dfind issue.details (txt "port")
  let process := dfind issue.details (txt "process")
  let part1 : Except Str (List Str) :=
    if (match process with | some dv => dTruthy dv | none => false) then
      match process with
      | some (.pinfo info) =>
        .ok ([txt "Option 1: Stop the process using port " ++ dShow port] ++
          (if info.name ≠ [] then
            [txt "  sudo kill " ++ intToStr info.pid ++ txt "  # Stop " ++ info.name]
           else []))
      | _ => .error (txt "AttributeError")
    else .ok []
  let s1 ← part1
  match port with
  | some (.i p) =>
    .ok { description := txt "Fix port " ++ dShow port ++ txt " conflict",
          steps := s1 ++
            [txt "Option 2: Change the port mapping in docker-compose.yml",
             txt "  ports:",
             txt "    - \"" ++ intToStr (p + 1) ++ txt ":80\"  # Change "
               ++ intToStr p ++ txt " to " ++ intToStr (p + 1)],
          auto_applicable := false }
  | _ => .error (txt "TypeError")

/-! ## Compose validators (`validators/compose_validator.py`) -/

/-- Whether a character matches the regex class `[A-Z]`. -/
def isUpperAZ (c : Char) : Bool := 65 ≤ c.toNat && c.toNat ≤ 90

/-- Whether a character matches the regex class `[A-Z0-9_]`. -/
def isEnvNameChar (c : Char) : Bool := isUpperAZ c || c.isDigit || c = '_'

/-- `re.findall` of the pattern `\$\x7b([^\x7d]+)\x7d|\$([A-Z_][A-Z0-9_]*)`
over a text: left-to-right, non-overlapping scan, returning `match[0] or
match[1]` for each match, exactly as `validate_environment_variables`
consumes it.  The fuel is an upper bound on the scan steps; every step
consumes at least one character, so the text's length suffices. -/
def scanEnvRefs : Nat → Str → List Str
  | 0, _ => []
  | _, [] => []
  | Nat.succ fuel, c :: rest =>
    if c = '$' then
      match rest with
      | [] => []
      | c2 :: rest2 =>
        if c2 = '\x7b' then
          let body := rest2.takeWhile (fun ch => ch ≠ '\x7d')
          let after := rest2.drop body.length
          if body ≠ [] ∧ after.head? = some '\x7d' then
            body :: scanEnvRefs fuel after.tail
          else scanEnvRefs fuel rest
        else if isUpperAZ c2 || c2 = '_' then
          let tl := rest2.takeWhile isEnvNameChar
          (c2 :: tl) :: scanEnvRefs fuel (rest2.drop tl.length)
        else scanEnvRefs fuel rest
    else scanEnvRefs fuel rest

/-- The `:latest`/untagged check of `validate_images` on the (defaulted)
`image` value: `str.endswith` on a truthy non-string image raises
`AttributeError`; a falsy image is skipped. -/
def DockerComposeValidator.imageTagIssues (name : Str) (imageY : Yaml) :
    Except Str (List Issue) :=
  if yTruthy imageY then
    match imageY with
    | .str s =>
      .ok (if (txt ":latest").isSuffixOf s || !s.contains ':' then
        [{ type := .image_version, severity := .warning,
           message := txt "Service '" ++ name
             ++ txt "' uses 'latest' tag or no tag for image '" ++ s ++ ['\''],
           service_name := some name,
           details := [(txt "image", .s s),
                       (txt "reason",
                        .s (txt "Using :latest can lead to unpredictable deployments"))] }]
        else [])
    | _ => .error (txt "AttributeError")
  else .ok []

/-- `DockerComposeValidator.validate_images`. -/
def DockerComposeValidator.validate_images :
    List (Str × Yaml) → Except Str (List Issue)
  | [] => .ok []
  | (name, sv) :: rest =>
    match sv with
    | .dict svc => do
      let missing : List Issue :=
        if (ydFind svc (txt "image")).isNone ∧ (ydFind svc (txt "build")).isNone then
          [{ type := .missing_image, severity := .critical,
             message := txt "Service '" ++ name ++ txt "' has no image or build specification",
             service_name := some name,
             details := [(txt "reason",
               .s (txt "Every service needs either an image or build directive"))] }]
        else []
      let verIssues ← DockerComposeValidator.imageTagIssues name
        ((ydFind svc (txt "image")).getD (.str []))
      let more ← DockerComposeValidator.validate_images rest
      .ok (missing ++ verIssues ++ more)
    | _ => DockerComposeValidator.validate_images rest

/-- `DockerComposeValidator.validate_environment_variables`.  Note the
undefined-variable test is Python-falsy: a variable set to the empty string
still warns here. -/
def DockerComposeValidator.validate_environment_variables (env : Str → Option Str)
    (services : List (Str × Yaml)) : List Issue :=
  services.flatMap (fun kv =>
    match kv.2 with
    | .dict svc =>
      let environment := (ydFind svc (txt "environment")).getD (.list [])
      let entries : List Yaml :=
        match environment with
        | .list xs => xs
        | .dict kvs =>
          kvs.map (fun e => Yaml.str (if yTruthy e.2 then e.1 ++ '=' :: pyStr e.2 else e.1))
        | _ => []
      entries.flatMap (fun e =>
        match e with
        | .str entry =>
          (scanEnvRefs entry.length entry).flatMap (fun var =>
            if (match env var with | some v => v.isEmpty | none => true) then
              [{ type := .missing_env_var, severity := .warning,
                 message := txt "Service '" ++ kv.1
                   ++ txt "' references undefined environment variable '$\x7b"
                   ++ var ++ txt "\x7d'",
                 service_name := some kv.1,
                 details := [(txt "variable", .s var), (txt "entry", .s entry)] }]
            else [])
        | _ => [])
    | _ => [])

/-- Python `dep in service_names` for a set of service-name strings. -/
def memNames (names : List Str) (dep : Yaml) : Bool :=
  match dep with
  | .str s => names.contains s
  | _ => false

/-- The `links` loop of `validate_dependencies`: `link.split(':')` on a
non-string element raises `AttributeError`. -/
def DockerComposeValidator.linksCheck (name : Str) (names : List Str) :
    List Yaml → Except Str (List Issue)
  | [] => .ok []
  | link :: rest => do
    match link with
    | .str ls =>
      let link_service := takeBefore ':' ls
      let here : List Issue :=
        if names.contains link_service then []
        else
          [{ type := .service_dependency, severity := .critical,
             message := txt "Service '" ++ name ++ txt "' links to non-existent service '"
               ++ link_service ++ ['\''],
             service_name := some name,
             details := [(txt "missing_link", .s link_service)] }]
      let more ← DockerComposeValidator.linksCheck name names rest
      .ok (here ++ more)
    | _ => .error (txt "AttributeError")

/-- The `depends_on` normalization of `validate_dependencies`: a mapping
iterates its keys, anything else is iterated directly (so a string iterates
its characters and a non-iterable raises `TypeError`). -/
def DockerComposeValidator.dependsEntries (dependsRaw : Yaml) : Except Str (List Yaml) :=
  match dependsRaw with
  | .dict kvs => .ok (kvs.map (fun e => Yaml.str e.1))
  | other => pyIter other

/-- `DockerComposeValidator.validate_dependencies`.  `service_names` is a
Python set; it is modelled as the key list (keys are unique, and only
membership and the stored name collection are observable). -/
def DockerComposeValidator.validate_dependenciesGo (names : List Str) :
    List (Str × Yaml) → Except Str (List Issue)
  | [] => .ok []
  | (name, sv) :: rest =>
    match sv with
    | .dict svc => do
      let deps ← DockerComposeValidator.dependsEntries
        ((ydFind svc (txt "depends_on")).getD (.list []))
      let depIssues : List Issue :=
        deps.flatMap (fun dep =>
          if memNames names dep then []
          else
            [{ type := .service_dependency, severity := .critical,
               message := txt "Service '" ++ name
                 ++ txt "' depends on non-existent service '" ++ pyStr dep ++ ['\''],
               service_name := some name,
               details := [(txt "missing_dependency", .y dep),
                           (txt "available_services", .sl names)] }])
      let links ← pyIter ((ydFind svc (txt "links")).getD (.list []))
      let linkIssues ← DockerComposeValidator.linksCheck name names links
      let more ← DockerComposeValidator.validate_dependenciesGo names rest
      .ok (depIssues ++ linkIssues ++ more)
    | _ => DockerComposeValidator.validate_dependenciesGo names rest

/-- `DockerComposeValidator.validate_dependencies`. -/
def DockerComposeValidator.validate_dependencies (services : List (Str × Yaml)) :
    Except Str (List Issue) :=
  DockerComposeValidator.validate_dependenciesGo (services.map Prod.fst) services

/-- `DockerComposeValidator.validate_volumes`. -/
def DockerComposeValidator.validate_volumesGo (defined : List Str) :
    List (Str × Yaml) → Except Str (List Issue)
  | [] => .ok []
  | (name, sv) :: rest =>
    match sv with
    | .dict svc => do
      let vols ← pyIter ((ydFind svc (txt "volumes")).getD (.list []))
      let here : List Issue :=
        vols.flatMap (fun v =>
          match v with
          | .str vs =>
            if vs.contains ':' then
              let source := takeBefore ':' vs
              if !(txt "/").isPrefixOf source && !(txt "./").isPrefixOf source
                  && !(txt "~").isPrefixOf source && !defined.contains source then
                [{ type := .volume_mount, severity := .warning,
                   message := txt "Service '" ++ name ++ txt "' uses undefined volume '"
                     ++ source ++ ['\''],
                   service_name := some name,
                   details := [(txt "volume", .s source),
                               (txt "defined_volumes", .sl defined),
                               (txt "suggestion",
                                .s (txt "Define the volume in the top-level volumes section"))] }]
              else []
            else []
          | _ => [])
      let more ← DockerComposeValidator.validate_volumesGo defined rest
      .ok (here ++ more)
    | _ => DockerComposeValidator.validate_volumesGo defined rest

/-- `DockerComposeValidator.validate_volumes`. -/
def DockerComposeValidator.validate_volumes (services volumes : List (Str × Yaml)) :
    Except Str (List Issue) :=
  DockerComposeValidator.validate_volumesGo (volumes.map Prod.fst) services

/-- `DockerComposeValidator.validate_networks`.  The defined-network set is
the top-level network keys plus `default`. -/
def DockerComposeValidator.validate_networksGo (defined : List Str) :
    List (Str × Yaml) → Except Str (List Issue)
  | [] => .ok []
  | (name, sv) :: rest =>
    match sv with
    | .dict svc => do
      let networksRaw := (ydFind svc (txt "networks")).getD (.list [])
      let nets ←
        match networksRaw with
        | .dict kvs => .ok (kvs.map (fun e => Yaml.str e.1))
        | other => pyIter other
      let here : List Issue :=
        nets.flatMap (fun net =>
          if memNames defined net then []
          else
            [{ type := .network_config, severity := .warning,
               message := txt "Service '" ++ name ++ txt "' uses undefined network '"
                 ++ pyStr net ++ ['\''],
               service_name := some name,
               details := [(txt "network", .y net), (txt "defined_networks", .sl defined)] }])
      let more ← DockerComposeValidator.validate_networksGo defined rest
      .ok (here ++ more)
    | _ => DockerComposeValidator.validate_networksGo defined rest

/-- `DockerComposeValidator.validate_networks`. -/
def DockerComposeValidator.validate_networks (services networks : List (Str × Yaml)) :
    Except Str (List Issue) :=
  DockerComposeValidator.validate_networksGo (networks.map Prod.fst ++ [txt "default"]) services

/-- `DockerComposeValidator.validate_resource_limits`.  A non-int
`deploy.replicas` makes `replicas > 1` raise `TypeError`; a non-mapping
`deploy`/`resources` makes the chained `.get` raise `AttributeError`. -/
def DockerComposeValidator.validate_resource_limits :
    List (Str × Yaml) → Except Str (List Issue)
  | [] => .ok []
  | (name, sv) :: rest =>
    match sv with
    | .dict svc => do
      let deploy := (ydFind svc (txt "deploy")).getD (.dict [])
      let resources ← yGetD deploy (txt "resources") (.dict [])
      let limits ← yGetD resources (txt "limits") (.dict [])
      let restart := (ydFind svc (txt "restart")).getD (.str [])
      let replicasY ← yGetD deploy (txt "replicas") (.int 1)
      let replicasBig ←
        match replicasY with
        | .int n => .ok (decide (1 < n))
        | .bool _ => .ok false
        | _ => .error (txt "TypeError")
      let restartAlways : Bool :=
        match restart with
        | .str s => s = txt "always" || s = txt "unless-stopped"
        | _ => false
      let here : List Issue :=
        if (restartAlways || replicasBig) && !(yTruthy limits) then
          [{ type := .resource_limit, severity := .warning,
             message := txt "Production service '" ++ name ++ txt "' has no resource limits",
             service_name := some name,
             details := [(txt "reason",
                          .s (txt "Services without limits can consume all available resources")),
                         (txt "restart", .y restart),
                         (txt "replicas", .y replicasY)] }]
        else []
      let more ← DockerComposeValidator.validate_resource_limits rest
      .ok (here ++ more)
    | _ => DockerComposeValidator.validate_resource_limits rest

/-- `DockerComposeValidator.generate_fix`: the deterministic fallback
templates.  The only failure point is `':' in image` on a truthy non-string
`image` detail (`TypeError`). -/
def DockerComposeValidator.generate_fix (issue : Issue) : Except Str Fix :=
  let svc := optShow issue.service_name
  match issue.type with
  | .missing_image =>
    .ok { description := txt "Add image specification to service '" ++ svc ++ ['\''],
          steps :=
            [txt "Add an image directive to the service:",
             txt "  services:",
             txt "    " ++ svc ++ [':'],
             txt "      image: nginx:1.21.0  # Use specific version",
             [],
             txt "OR specify a build context:",
             txt "  services:",
             txt "    " ++ svc ++ [':'],
             txt "      build: ./path/to/dockerfile"],
          auto_applicable := false }
  | .image_version => do
    let image ←
      match dfind issue.details (txt "image") with
      | none => .ok []
      | some (.s s) => .ok s
      | some _ => (.error (txt "TypeError") : Except Str Str)
    let base_image := if image.contains ':' then takeBefore ':' image else image
    .ok { description := txt "Pin specific version for '" ++ svc ++ ['\''],
          steps :=
            [txt "Replace 'latest' with a specific version:",
             txt "  services:",
             txt "    " ++ svc ++ [':'],
             txt "      image: " ++ base_image ++ txt ":1.21.0  # Choose appropriate version",
             [],
             txt "Check available versions at hub.docker.com"],
          auto_applicable := false }
  | .missing_env_var =>
    let var :=
      match dfind issue.details (txt "variable") with
      | some dv => dvalStr dv
      | none => []
    .ok { description := txt "Define environment variable '" ++ var ++ ['\''],
          steps :=
            [txt "Option 1: Create a .env file in the same directory:",
             txt "  " ++ var ++ txt "=your_value_here",
             [],
             txt "Option 2: Export in your shell:",
             txt "  export " ++ var ++ txt "=your_value_here",
             [],
             txt "Option 3: Use a default value in docker-compose.yml:",
             txt "  environment:",
             txt "    - MY_VAR=$\x7b" ++ var ++ txt ":-default_value\x7d"],
          auto_applicable := false }
  | .service_dependency =>
    let md :=
      let o1 := dfind issue.details (txt "missing_dependency")
      if (match o1 with | some dv => dTruthy dv | none => false) then o1
      else dfind issue.details (txt "missing_link")
    let missing := dShow md
    .ok { description := txt "Fix missing service dependency '" ++ missing ++ ['\''],
          steps :=
            [txt "Option 1: Remove the dependency on '" ++ missing ++ txt "':",
             txt "  depends_on:",
             txt "    # Remove '" ++ missing ++ ['\''],
             [],
             txt "Option 2: Add the '" ++ missing ++ txt "' service:",
             txt "  services:",
             txt "    " ++ missing ++ [':'],
             txt "      image: appropriate/image:tag"],
          auto_applicable := false }
  | .volume_mount =>
    let volume :=
      match dfind issue.details (txt "volume") with
      | some dv => dvalStr dv
      | none => []
    .ok { description := txt "Define volume '" ++ volume ++ ['\''],
          steps :=
            [txt "Add the volume to the top-level volumes section:",
             txt "volumes:",
             txt "  " ++ volume ++ [':'],
             txt "    driver: local",
             [],
             txt "OR use a bind mount with absolute path:",
             txt "  volumes:",
             txt "    - /absolute/path/to/data:/container/path"],
          auto_applicable := false }
  | .resource_limit =>
    .ok { description := txt "Add resource limits to '" ++ svc ++ ['\''],
          steps :=
            [txt "Add resource limits using deploy section:",
             txt "  services:",
             txt "    " ++ svc ++ [':'],
             txt "      deploy:",
             txt "        resources:",
             txt "          limits:",
             txt "            cpus: '0.5'",
             txt "            memory: 512M",
             txt "          reservations:",
             txt "            cpus: '0.25'",
             txt "            memory: 256M"],
          auto_applicable := false }
  | _ =>
    .ok { description := txt "Manual review required",
          steps := [txt "Review the configuration manually"],
          auto_applicable := false }

/-- `DockerComposeParser.get_ports`: the parser-side port normalization
(string entries verbatim, long-form mappings rendered
`published:target` with `published` defaulting to `target`; bare integers
are dropped). -/
def DockerComposeParser.get_ports (services : List (Str × Yaml)) (service_name : Str) :
    Except Str (List Str) :=
  match ydFind services service_name with
  | none => .ok []
  | some service => do
    let portsY ← yGetD service (txt "ports") (.list [])
    let ports ← pyIter portsY
    .ok (ports.flatMap (fun port =>
      match port with
      | .str s => [s]
      | .dict kvs =>
        let target := ydFind kvs (txt "target")
        let published :=
          match ydFind kvs (txt "published") with
          | some v => some v
          | none => target
        if (match published with | some v => yTruthy v | none => false) then
          [(match published with | some v => pyStr v | none => txt "None") ++
            ':' :: (match target with | some v => pyStr v | none => txt "None")]
        else []
      | _ => []))

/-! ## Kubernetes validators (`validators/k8s_validator.py`) -/

/-- `resource.get('kind')` comparison against a kind name; non-mapping
resources raise `AttributeError` in the list comprehensions. -/
def kindIs (r : Yaml) (k : Str) : Except Str Bool :=
  match r with
  | .dict kvs => .ok (match ydFind kvs (txt "kind") with
      | some (.str s) => s = k
      | _ => false)
  | _ => .error (txt "AttributeError")

/-- Filter resources by `kind` membership, as the k8s validators'
comprehensions do. -/
def filterKinds (ks : List Str) : List Yaml → Except Str (List Yaml)
  | [] => .ok []
  | r :: rest => do
    let hit ←
      match r with
      | .dict kvs => .ok (match ydFind kvs (txt "kind") with
          | some (.str s) => ks.contains s
          | _ => false)
      | _ => (.error (txt "AttributeError") : Except Str Bool)
    let more ← filterKinds ks rest
    .ok (if hit then r :: more else more)

/-- `resource.get('metadata', {}).get('name', 'unknown')` (the name is used
in f-strings, so any YAML value is accepted and rendered). -/
def metaField (r : Yaml) (field : Str) (dflt : Yaml) : Except Str Yaml := do
  let meta ← yGetD r (txt "metadata") (.dict [])
  yGetD meta field dflt

/-- Containers of a Deployment-like resource:
`spec.template.spec.containers`, each `.get` defaulting to `\x7b\x7d`. -/
def templateContainers (r : Yaml) : Except Str (List Yaml) := do
  let spec ← yGetD r (txt "spec") (.dict [])
  let template ← yGetD spec (txt "template") (.dict [])
  let tspec ← yGetD template (txt "spec") (.dict [])
  let cs ← yGetD tspec (txt "containers") (.list [])
  pyIter cs

/-- Containers of a Pod: `spec.containers`. -/
def podContainers (r : Yaml) : Except Str (List Yaml) := do
  let spec ← yGetD r (txt "spec") (.dict [])
  let cs ← yGetD spec (txt "containers") (.list [])
  pyIter cs

mutual
/-- Python `==` on parsed YAML values (structural; the Python identification
of `True` with `1` is immaterial for the inputs compared here). -/
def yamlBEq : Yaml → Yaml → Bool
  | .str a, .str b => a == b
  | .int a, .int b => a == b
  | .bool a, .bool b => a == b
  | .null, .null => true
  | .list a, .list b => yamlBEqL a b
  | .dict a, .dict b => yamlBEqD a b
  | _, _ => false

def yamlBEqL : List Yaml → List Yaml → Bool
  | [], [] => true
  | a :: as, b :: bs => yamlBEq a b && yamlBEqL as bs
  | _, _ => false

def yamlBEqD : List (Str × Yaml) → List (Str × Yaml) → Bool
  | [], [] => true
  | (k, v) :: as, (k2, v2) :: bs => k == k2 && yamlBEq v v2 && yamlBEqD as bs
  | _, _ => false
end

/-- Rendering of an `Optional` YAML value in an f-string. -/
def showOptY (o : Option Yaml) : Str :=
  match o with
  | some v => pyStr v
  | none => txt "None"

/-- The container loop of `KubernetesValidator.validate_security`. -/
def KubernetesValidator.securityContainers (kindS nameS : Str) (ns : Yaml) :
    List Yaml → Except Str (List Issue)
  | [] => .ok []
  | container :: rest => do
    let cname ← yGetD container (txt "name") (.str (txt "unknown"))
    let sc ← yGetD container (txt "securityContext") (.dict [])
    let priv ← yGet sc (txt "privileged")
    let privIssues : List Issue :=
      if (match priv with | some v => yTruthy v | none => false) then
        [{ type := .security_issue, severity := .critical,
           message := kindS ++ txt " '" ++ nameS ++ txt "' container '" ++ pyStr cname
             ++ txt "' runs in privileged mode",
           service_name := some nameS,
           details := [(txt "container", .y cname), (txt "namespace", .y ns),
                       (txt "reason",
                        .s (txt "Privileged containers have access to all devices and can compromise security"))] }]
      else []
    let nonRoot ← yGet sc (txt "runAsNonRoot")
    let runAsUser ← yGet sc (txt "runAsUser")
    let rootIssues : List Issue :=
      if !(match nonRoot with | some v => yTruthy v | none => false) then
        if (match runAsUser with
            | none => true
            | some .null => true
            | some (.int n) => n == 0
            | some (.bool b) => !b
            | some _ => false) then
          [{ type := .security_issue, severity := .warning,
             message := kindS ++ txt " '" ++ nameS ++ txt "' container '" ++ pyStr cname
               ++ txt "' may run as root",
             service_name := some nameS,
             details := [(txt "container", .y cname), (txt "namespace", .y ns),
                         (txt "reason", .s (txt "Running as root increases security risk"))] }]
        else []
      else []
    let more ← KubernetesValidator.securityContainers kindS nameS ns rest
    .ok (privIssues ++ rootIssues ++ more)

/-- The resource loop of `KubernetesValidator.validate_security`. -/
def KubernetesValidator.securityGo : List Yaml → Except Str (List Issue)
  | [] => .ok []
  | r :: rest => do
    let nameY ← metaField r (txt "name") (.str (txt "unknown"))
    let ns ← metaField r (txt "namespace") (.str (txt "default"))
    let kindY ← yGet r (txt "kind")
    let containers ←
      if (match kindY with | some (.str s) => s == txt "Pod" | _ => false) then
        podContainers r
      else templateContainers r
    let here ← KubernetesValidator.securityContainers (showOptY kindY) (pyStr nameY) ns containers
    let more ← KubernetesValidator.securityGo rest
    .ok (here ++ more)

/-- `KubernetesValidator.validate_security`. -/
def KubernetesValidator.validate_security (resources : List Yaml) : Except Str (List Issue) := do
  let deployments ← filterKinds
    [txt "Deployment", txt "Pod", txt "StatefulSet", txt "DaemonSet"] resources
  KubernetesValidator.securityGo deployments

/-- The container loop of `KubernetesValidator.validate_probes`. -/
def KubernetesValidator.probesContainers (nameS : Str) (ns : Yaml) :
    List Yaml → Except Str (List Issue)
  | [] => .ok []
  | container :: rest => do
    let cname ← yGetD container (txt "name") (.str (txt "unknown"))
    let hasLive ← yGet container (txt "livenessProbe")
    let hasReady ← yGet container (txt "readinessProbe")
    let liveIssues : List Issue :=
      if hasLive.isNone then
        [{ type := .health_check, severity := .warning,
           message := txt "Deployment '" ++ nameS ++ txt "' container '" ++ pyStr cname
             ++ txt "' has no liveness probe",
           service_name := some nameS,
           details := [(txt "container", .y cname), (txt "namespace", .y ns),
                       (txt "reason",
                        .s (txt "Liveness probes help Kubernetes restart unhealthy containers"))] }]
      else []
    let readyIssues : List Issue :=
      if hasReady.isNone then
        [{ type := .health_check, severity := .warning,
           message := txt "Deployment '" ++ nameS ++ txt "' container '" ++ pyStr cname
             ++ txt "' has no readiness probe",
           service_name := some nameS,
           details := [(txt "container", .y cname), (txt "namespace", .y ns),
                       (txt "reason",
                        .s (txt "Readiness probes ensure traffic only goes to ready pods"))] }]
      else []
    let more ← KubernetesValidator.probesContainers nameS ns rest
    .ok (liveIssues ++ readyIssues ++ more)

/-- `KubernetesValidator.validate_probes`. -/
def KubernetesValidator.validate_probesGo : List Yaml → Except Str (List Issue)
  | [] => .ok []
  | r :: rest => do
    let nameY ← metaField r (txt "name") (.str (txt "unknown"))
    let ns ← metaField r (txt "namespace") (.str (txt "default"))
    let containers ← templateContainers r
    let here ← KubernetesValidator.probesContainers (pyStr nameY) ns containers
    let more ← KubernetesValidator.validate_probesGo rest
    .ok (here ++ more)

/-- `KubernetesValidator.validate_probes`. -/
def KubernetesValidator.validate_probes (resources : List Yaml) : Except Str (List Issue) := do
  let deployments ← filterKinds [txt "Deployment", txt "StatefulSet"] resources
  KubernetesValidator.validate_probesGo deployments

/-- The selector loop of `KubernetesValidator.validate_labels`: emits one
issue for the first mismatching key and stops (the `break`). -/
def KubernetesValidator.labelsLoop (kindS nameS : Str) (ns : Yaml)
    (sel tl : List (Str × Yaml)) : List (Str × Yaml) → Except Str (List Issue)
  | [] => .ok []
  | (key, value) :: rest =>
    if (match ydFind tl key with
        | none => true
        | some tv => !yamlBEq tv value) then
      .ok [{ type := .label_mismatch, severity := .critical,
             message := kindS ++ txt " '" ++ nameS
               ++ txt "' selector doesn't match pod template labels",
             service_name := some nameS,
             details := [(txt "namespace", .y ns), (txt "selector", .y (.dict sel)),
                         (txt "template_labels", .y (.dict tl)),
                         (txt "reason",
                          .s (txt "Mismatched labels will prevent the deployment from managing pods"))] }]
    else KubernetesValidator.labelsLoop kindS nameS ns sel tl rest

/-- `KubernetesValidator.validate_labels`. -/
def KubernetesValidator.validate_labels : List Yaml → Except Str (List Issue)
  | [] => .ok []
  | r :: rest => do
    let kindY ←
      match r with
      | .dict kvs => .ok (ydFind kvs (txt "kind"))
      | _ => (.error (txt "AttributeError") : Except Str (Option Yaml))
    if !(match kindY with
        | some (.str s) => s == txt "Deployment" || s == txt "StatefulSet" || s == txt "DaemonSet"
        | _ => false) then
      KubernetesValidator.validate_labels rest
    else do
      let nameY ← metaField r (txt "name") (.str (txt "unknown"))
      let ns ← metaField r (txt "namespace") (.str (txt "default"))
      let spec ← yGetD r (txt "spec") (.dict [])
      let selY ← yGetD spec (txt "selector") (.dict [])
      let matchLabels ← yGetD selY (txt "matchLabels") (.dict [])
      let template ← yGetD spec (txt "template") (.dict [])
      let tmeta ← yGetD template (txt "metadata") (.dict [])
      let labelsY ← yGetD tmeta (txt "labels") (.dict [])
      let sel ←
        match matchLabels with
        | .dict kvs => .ok kvs
        | _ => (.error (txt "AttributeError") : Except Str (List (Str × Yaml)))
      let tl ←
        match labelsY with
        | .dict kvs => .ok kvs
        | _ => (.error (txt "TypeError") : Except Str (List (Str × Yaml)))
      let here ← KubernetesValidator.labelsLoop (showOptY kindY) (pyStr nameY) ns sel tl sel
      let more ← KubernetesValidator.validate_labels rest
      .ok (here ++ more)

/-- The NodePort loop of `KubernetesValidator.validate_services` for one
Service's ports, threading the cross-service `nodeport_map`
(`"namespace:nodePort"` key → first claiming service's name). -/
def KubernetesValidator.nodePortLoop (nameY ns : Yaml) :
    List Yaml → List (Str × Yaml) → Except Str (List Issue × List (Str × Yaml))
  | [], np => .ok ([], np)
  | pc :: rest, np => do
    let nodePort ← yGet pc (txt "nodePort")
    match nodePort with
    | some v =>
      if yTruthy v then
        let key := pyStr ns ++ ':' :: pyStr v
        match ydFind np key with
        | some owner => do
          let r ← KubernetesValidator.nodePortLoop nameY ns rest np
          .ok ({ type := .port_conflict, severity := .critical,
                 message := txt "NodePort " ++ pyStr v
                   ++ txt " is used by multiple services: '" ++ pyStr owner
                   ++ txt "' and '" ++ pyStr nameY ++ ['\''],
                 service_name := some (pyStr nameY),
                 details := [(txt "port", .y v), (txt "namespace", .y ns),
                             (txt "conflicting_service", .y owner)] } :: r.1, r.2)
        | none => KubernetesValidator.nodePortLoop nameY ns rest (np ++ [(key, nameY)])
      else KubernetesValidator.nodePortLoop nameY ns rest np
    | none => KubernetesValidator.nodePortLoop nameY ns rest np

/-- The duplicate-`(port, protocol)` loop of
`KubernetesValidator.validate_services` within one Service. -/
def KubernetesValidator.dupPortLoop (nameY ns : Yaml) :
    List Yaml → List Str → Except Str (List Issue)
  | [], _ => .ok []
  | pc :: rest, seen => do
    let port ← yGet pc (txt "port")
    let protocol ← yGetD pc (txt "protocol") (.str (txt "TCP"))
    let key := showOptY port ++ ':' :: pyStr protocol
    if seen.contains key then do
      let more ← KubernetesValidator.dupPortLoop nameY ns rest seen
      .ok ({ type := .port_conflict, severity := .critical,
             message := txt "Service '" ++ pyStr nameY ++ txt "' has duplicate port "
               ++ showOptY port ++ '/' :: pyStr protocol,
             service_name := some (pyStr nameY),
             details := [(txt "port", match port with | some v => .y v | none => .nil),
                         (txt "protocol", .y protocol),
                         (txt "namespace", .y ns)] } :: more)
    else KubernetesValidator.dupPortLoop nameY ns rest (seen ++ [key])

/-- The Service loop of `KubernetesValidator.validate_services`. -/
def KubernetesValidator.servicesGo :
    List Yaml → List (Str × Yaml) → Except Str (List Issue)
  | [], _ => .ok []
  | svc :: rest, np => do
    let nameY ← metaField svc (txt "name") (.str (txt "unknown"))
    let ns ← metaField svc (txt "namespace") (.str (txt "default"))
    let spec ← yGetD svc (txt "spec") (.dict [])
    let specType ← yGet spec (txt "type")
    let r ←
      if (match specType with | some (.str s) => s == txt "NodePort" | _ => false) then do
        let ports ← yGetD spec (txt "ports") (.list [])
        let pcs ← pyIter ports
        KubernetesValidator.nodePortLoop nameY ns pcs np
      else .ok ([], np)
    let ports2 ← yGetD spec (txt "ports") (.list [])
    let pcs2 ← pyIter ports2
    let dups ← KubernetesValidator.dupPortLoop nameY ns pcs2 []
    let more ← KubernetesValidator.servicesGo rest r.2
    .ok (r.1 ++ dups ++ more)

/-- `KubernetesValidator.validate_services`. -/
def KubernetesValidator.validate_services (resources : List Yaml) :
    Except Str (List Issue) := do
  let services ← filterKinds [txt "Service"] resources
  KubernetesValidator.servicesGo services []

/-- The image-tag loop of `KubernetesValidator.validate_deployments`. -/
def KubernetesValidator.deployImagesLoop (nameS : Str) (ns : Yaml) :
    List Yaml → Except Str (List Issue)
  | [] => .ok []
  | container :: rest => do
    let imageY ← yGetD container (txt "image") (.str [])
    let image ←
      match imageY with
      | .str s => .ok s
      | _ => (.error (txt "AttributeError") : Except Str Str)
    let cname ← yGet container (txt "name")
    let here : List Issue :=
      if (txt ":latest").isSuffixOf image || !image.contains ':' then
        [{ type := .image_version, severity := .warning,
           message := txt "Deployment '" ++ nameS ++ txt "' uses 'latest' tag for container '"
             ++ showOptY cname ++ ['\''],
           service_name := some nameS,
           details := [(txt "container", match cname with | some v => .y v | none => .nil),
                       (txt "image", .s image), (txt "namespace", .y ns),
                       (txt "reason",
                        .s (txt "Using :latest can lead to unpredictable deployments"))] }]
      else []
    let more ← KubernetesValidator.deployImagesLoop nameS ns rest
    .ok (here ++ more)

/-- The resource-limits loop of `KubernetesValidator.validate_deployments`. -/
def KubernetesValidator.deployLimitsLoop (nameS : Str) (ns : Yaml) :
    List Yaml → Except Str (List Issue)
  | [] => .ok []
  | container :: rest => do
    let res ← yGetD container (txt "resources") (.dict [])
    let limits ← yGet res (txt "limits")
    let cname ← yGet container (txt "name")
    let here : List Issue :=
      if !(match limits with | some v => yTruthy v | none => false) then
        [{ type := .resource_limits, severity := .warning,
           message := txt "Deployment '" ++ nameS ++ txt "' container '"
             ++ showOptY cname ++ txt "' has no resource limits",
           service_name := some nameS,
           details := [(txt "container", match cname with | some v => .y v | none => .nil),
                       (txt "namespace", .y ns),
                       (txt "reason", .s (txt "Missing limits can cause resource exhaustion"))] }]
      else []
    let more ← KubernetesValidator.deployLimitsLoop nameS ns rest
    .ok (here ++ more)

/-- The Deployment loop of `KubernetesValidator.validate_deployments`. -/
def KubernetesValidator.deploymentsGo : List Yaml → Except Str (List Issue)
  | [] => .ok []
  | r :: rest => do
    let nameY ← metaField r (txt "name") (.str (txt "unknown"))
    let ns ← metaField r (txt "namespace") (.str (txt "default"))
    let containers ← templateContainers r
    let imgs ← KubernetesValidator.deployImagesLoop (pyStr nameY) ns containers
    let lims ← KubernetesValidator.deployLimitsLoop (pyStr nameY) ns containers
    let more ← KubernetesValidator.deploymentsGo rest
    .ok (imgs ++ lims ++ more)

/-- `KubernetesValidator.validate_deployments`. -/
def KubernetesValidator.validate_deployments (resources : List Yaml) :
    Except Str (List Issue) := do
  let deployments ← filterKinds [txt "Deployment"] resources
  KubernetesValidator.deploymentsGo deployments

/-- `KubernetesValidator.generate_fix`.  `port + 1` raises `TypeError`
unless the `port` detail is an int; `image.split(':')` raises on a present
non-string `image` detail. -/
def KubernetesValidator.generate_fix (issue : Issue) : Except Str Fix :=
  match issue.type with
  | .port_conflict => do
    let port := dfind issue.details (txt "port")
    let nsS :=
      match dfind issue.details (txt "namespace") with
      | some dv => dvalStr dv
      | none => txt "default"
    match port with
    | some (.i p) =>
      .ok { description := txt "Fix NodePort " ++ intToStr p ++ txt " conflict in namespace '"
              ++ nsS ++ ['\''],
            steps :=
              [txt "Option 1: Change one service's nodePort to " ++ intToStr (p + 1),
               txt "  spec:",
               txt "    ports:",
               txt "    - nodePort: " ++ intToStr (p + 1),
               [],
               txt "Option 2: Remove nodePort specification to let Kubernetes assign automatically",
               txt "  spec:",
               txt "    ports:",
               txt "    - port: 8080",
               txt "      targetPort: 80"],
            auto_applicable := false }
    | some (.y (.int p)) =>
      .ok { description := txt "Fix NodePort " ++ intToStr p ++ txt " conflict in namespace '"
              ++ nsS ++ ['\''],
            steps :=
              [txt "Option 1: Change one service's nodePort to " ++ intToStr (p + 1),
               txt "  spec:",
               txt "    ports:",
               txt "    - nodePort: " ++ intToStr (p + 1),
               [],
               txt "Option 2: Remove nodePort specification to let Kubernetes assign automatically",
               txt "  spec:",
               txt "    ports:",
               txt "    - port: 8080",
               txt "      targetPort: 80"],
            auto_applicable := false }
    | _ => .error (txt "TypeError")
  | .image_version => do
    let container := dShow (dfind issue.details (txt "container"))
    let image ←
      match dfind issue.details (txt "image") with
      | none => .ok []
      | some (.s s) => .ok s
      | some _ => (.error (txt "TypeError") : Except Str Str)
    let base_image := takeBefore ':' image
    .ok { description := txt "Pin specific version for " ++ container,
          steps :=
            [txt "Replace 'latest' with specific version tag:",
             txt "  containers:",
             txt "  - name: " ++ container,
             txt "    image: " ++ base_image ++ txt ":1.21.0  # Use specific version",
             [],
             txt "Check available versions at: https://hub.docker.com"],
          auto_applicable := false }
  | .resource_limits =>
    let container := dShow (dfind issue.details (txt "container"))
    .ok { description := txt "Add resource limits for " ++ container,
          steps :=
            [txt "Add resource limits to prevent resource exhaustion:",
             txt "  containers:",
             txt "  - name: " ++ container,
             txt "    resources:",
             txt "      limits:",
             txt "        memory: \"256Mi\"",
             txt "        cpu: \"500m\"",
             txt "      requests:",
             txt "        memory: \"128Mi\"",
             txt "        cpu: \"250m\""],
          auto_applicable := false }
  | _ =>
    .ok { description := txt "Manual review required",
          steps := [txt "Review the configuration manually"],
          auto_applicable := false }

/-! ## Orchestration (`cli.py`) -/

/-- The structured dictionary returned by `AIProvider.analyze_error`: an
`error` key, or parsed `explanation`/`root_cause`/`fix_steps` content
(`none` models an absent key; `fix_steps` absent and empty coincide, only
truthiness and the default `[]` are read). -/
structure AiResult where
  error : Option Str := none
  explanation : Option Str := none
  root_cause : Option Str := none
  fix_steps : List Str := []

/-- The per-issue fix generation of `analyze_docker_compose` (cli.py lines
91-134): for a CRITICAL issue with an available provider, accept the AI
result when it has no `error` key and a non-empty `fix_steps`; any provider
exception (`none` from the oracle) silently falls back; otherwise the
rule-based fix, dispatched on `PORT_CONFLICT`. -/
def fixForCompose (ai : Option (Issue → Option AiResult)) (issue : Issue) :
    Except Str Fix :=
  let aiFix : Option Fix :=
    match ai with
    | some oracle =>
      if issue.severity = .critical then
        match oracle issue with
        | some res =>
          if res.error.isNone ∧ res.fix_steps ≠ [] then
            some { description := res.explanation.getD (txt "AI-generated fix"),
                   steps := res.fix_steps,
                   auto_applicable := false,
                   explanation := some (res.explanation.getD []),
                   root_cause := some (res.root_cause.getD []) }
          else none
        | none => none
      else none
    | none => none
  match aiFix with
  | some f => .ok f
  | none =>
    if issue.type = .port_conflict then PortValidator.generate_fix issue
    else DockerComposeValidator.generate_fix issue

/-- The fix-generation loop: one fix appended per issue, in order; an
exception aborts the whole analysis. -/
def mapFixes (f : Issue → Except Str Fix) : List Issue → Except Str (List Fix)
  | [] => .ok []
  | i :: rest => do
    let fx ← f i
    let more ← mapFixes f rest
    .ok (fx :: more)

/-- `analyze_docker_compose` (cli.py): parse, run the seven validators in
program order, concatenate all issues, generate index-aligned fixes, and
compute `success` as the absence of CRITICAL issues.  An uncaught exception
(nothing catches validator or fix-generation errors on this path) is
`.error`. -/
def analyze_docker_compose (fp : Str) (env : Str → Option Str)
    (portInUse : Int → Bool) (procOf : Int → Option PInfo)
    (ai : Option (Issue → Option AiResult)) (input : ComposeInput) :
    Except Str AnalysisResult :=
  let pr := DockerComposeParser.parse fp env input
  let config := pr.1
  do
    let portIssues ← PortValidator.validate portInUse procOf config.services
    let imgIssues ← DockerComposeValidator.validate_images config.services
    let envIssues := DockerComposeValidator.validate_environment_variables env config.services
    let depIssues ← DockerComposeValidator.validate_dependencies config.services
    let volIssues ← DockerComposeValidator.validate_volumes config.services config.volumes
    let netIssues ← DockerComposeValidator.validate_networks config.services config.networks
    let rlIssues ← DockerComposeValidator.validate_resource_limits config.services
    let all_issues := pr.2 ++ portIssues ++ imgIssues ++ envIssues ++ depIssues
      ++ volIssues ++ netIssues ++ rlIssues
    let fixes ← mapFixes (fixForCompose ai) all_issues
    .ok { success := (all_issues.filter (fun i => i.severity == Severity.critical)).length == 0,
          issues := all_issues, fixes := fixes }

/-- Outcome of `KubernetesParser.parse` as observed by
`analyze_kubernetes_manifest`'s `try`: the file may be missing, the YAML
reader may raise, another exception may occur, or the YAML documents are
produced. -/
inductive K8sInput where
  | fileNotFound
  | yamlError (msg : Str)
  | otherError (msg : Str)
  | docs (ds : List Yaml)

/-- The per-issue fix generation of `analyze_kubernetes_manifest` (cli.py
lines 412-462): AI attempt for CRITICAL issues, rule-based fallback via
`KubernetesValidator.generate_fix`. -/
def fixForK8s (ai : Option (Issue → Option AiResult)) (issue : Issue) :
    Except Str Fix :=
  let aiFix : Option Fix :=
    match ai with
    | some oracle =>
      if issue.severity = .critical then
        match oracle issue with
        | some res =>
          if res.error.isNone ∧ res.fix_steps ≠ [] then
            some { description := res.explanation.getD (txt "AI-generated fix"),
                   steps := res.fix_steps,
                   auto_applicable := false,
                   explanation := some (res.explanation.getD []),
                   root_cause := some (res.root_cause.getD []) }
          else none
        | none => none
      else none
    | none => none
  match aiFix with
  | some f => .ok f
  | none => KubernetesValidator.generate_fix issue

/-- The body of `analyze_kubernetes_manifest`'s `try` after a non-empty
resource list is obtained: the five validators in program order, then
index-aligned fix generation and the `success` computation. -/
def k8sCore (ai : Option (Issue → Option AiResult)) (resources : List Yaml) :
    Except Str AnalysisResult := do
  let svcIssues ← KubernetesValidator.validate_services resources
  let depIssues ← KubernetesValidator.validate_deployments resources
  let secIssues ← KubernetesValidator.validate_security resources
  let probeIssues ← KubernetesValidator.validate_probes resources
  let labelIssues ← KubernetesValidator.validate_labels resources
  let all_issues := svcIssues ++ depIssues ++ secIssues ++ probeIssues ++ labelIssues
  let fixes ← mapFixes (fixForK8s ai) all_issues
  .ok { success := (all_issues.filter (fun i => i.severity == Severity.critical)).length == 0,
        issues := all_issues, fixes := fixes }

/-- `analyze_kubernetes_manifest` (cli.py): every raised exception is caught
and turned into a single-issue CRITICAL result with an empty `fixes` list,
so the function is total.  Truthiness-filtered documents model the
`if doc:` skip of empty documents. -/
def analyze_kubernetes_manifest (fp : Str) (ai : Option (Issue → Option AiResult))
    (input : K8sInput) : AnalysisResult :=
  match input with
  | .fileNotFound =>
    { success := false,
      issues := [{ type := .invalid_yaml, severity := .critical,
                   message := txt "File not found: " ++ fp, file_path := some fp }] }
  | .yamlError m =>
    { success := false,
      issues := [{ type := .invalid_yaml, severity := .critical,
                   message := txt "Invalid YAML: " ++ m, file_path := some fp }] }
  | .otherError m =>
    { success := false,
      issues := [{ type := .invalid_yaml, severity := .critical,
                   message := txt "Analysis failed: " ++ m, file_path := some fp }] }
  | .docs ds =>
    let resources := ds.filter yTruthy
    if resources.isEmpty then
      { success := false,
        issues := [{ type := .invalid_yaml, severity := .critical,
                     message := txt "No valid Kubernetes resources found in file",
                     file_path := some fp }] }
    else
      match k8sCore ai resources with
      | .ok r => r
      | .error e =>
        { success := false,
          issues := [{ type := .invalid_yaml, severity := .critical,
                       message := txt "Analysis failed: " ++ e, file_path := some fp }] }

/-! ## AI response parsing (`ai/providers.py`) -/

/-- The parser's mutable result dictionary. -/
structure ParseResult where
  explanation : Str := []
  root_cause : Str := []
  fix_steps : List Str := []

/-- The `current_section` state of the response parsers. -/
inductive Sect where
  | expl
  | root
  | steps
deriving DecidableEq

/-- One iteration of the line loop of `GroqProvider._parse_response`. -/
def GroqProvider.parseLine (st : Option Sect × ParseResult) (rawLine : Str) :
    Option Sect × ParseResult :=
  let cur := st.1
  let res := st.2
  let line := pyStrip rawLine
  if line.isEmpty then (cur, res)
  else
    let low := pyLower line
    if containsSub (txt "explanation") low && line.contains ':' then
      let content :=
        match splitOnce [':'] line with
        | some p => pyStrip p.2
        | none => []
      (some .expl, if content ≠ [] then { res with explanation := content } else res)
    else if containsSub (txt "root cause") low && line.contains ':' then
      let content :=
        match splitOnce [':'] line with
        | some p => pyStrip p.2
        | none => []
      (some .root, if content ≠ [] then { res with root_cause := content } else res)
    else if containsSub (txt "fix") low && line.contains ':' then
      (some .steps, res)
    else if cur = some .steps &&
        (line.head? = some '-' || line.head? = some '•' || line.head? = some '*'
          || (match line.head? with | some c => c.isDigit | none => false)) then
      let clean := pyStrip (pyLStripSet (txt "-•*0123456789. ") line)
      (cur, if clean ≠ [] then { res with fix_steps := res.fix_steps ++ [clean] } else res)
    else if cur.isSome &&
        !(containsSub (txt "explanation") low || containsSub (txt "root") low
          || containsSub (txt "fix") low) then
      match cur with
      | some .expl => (cur, if res.explanation.isEmpty then { res with explanation := line } else res)
      | some .root => (cur, if res.root_cause.isEmpty then { res with root_cause := line } else res)
      | _ => (cur, res)
    else (cur, res)

/-- `GroqProvider._parse_response`. -/
def GroqProvider.parse_response (response : Str) : ParseResult :=
  let lines := pySplitChar '\n' (pyStrip response)
  let st := lines.foldl GroqProvider.parseLine (none, {})
  let res := st.2
  if res.explanation.isEmpty then { res with explanation := response.take 200 } else res

/-- One iteration of the line loop of `GeminiProvider._parse_response`
(differs from Groq's only in the bullet markers: no `*`). -/
def GeminiProvider.parseLine (st : Option Sect × ParseResult) (rawLine : Str) :
    Option Sect × ParseResult :=
  let cur := st.1
  let res := st.2
  let line := pyStrip rawLine
  if line.isEmpty then (cur, res)
  else
    let low := pyLower line
    if containsSub (txt "explanation") low && line.contains ':' then
      let content :=
        match splitOnce [':'] line with
        | some p => pyStrip p.2
        | none => []
      (some .expl, if content ≠ [] then { res with explanation := content } else res)
    else if containsSub (txt "root cause") low && line.contains ':' then
      let content :=
        match splitOnce [':'] line with
        | some p => pyStrip p.2
        | none => []
      (some .root, if content ≠ [] then { res with root_cause := content } else res)
    else if containsSub (txt "fix") low && line.contains ':' then
      (some .steps, res)
    else if cur = some .steps &&
        (line.head? = some '-' || line.head? = some '•'
          || (match line.head? with | some c => c.isDigit | none => false)) then
      let clean := pyStrip (pyLStripSet (txt "-•0123456789. ") line)
      (cur, if clean ≠ [] then { res with fix_steps := res.fix_steps ++ [clean] } else res)
    else if cur.isSome &&
        !(containsSub (txt "explanation") low || containsSub (txt "root") low
          || containsSub (txt "fix") low) then
      match cur with
      | some .expl => (cur, if res.explanation.isEmpty then { res with explanation := line } else res)
      | some .root => (cur, if res.root_cause.isEmpty then { res with root_cause := line } else res)
      | _ => (cur, res)
    else (cur, res)

/-- `GeminiProvider._parse_response`. -/
def GeminiProvider.parse_response (response : Str) : ParseResult :=
  let lines := pySplitChar '\n' (pyStrip response)
  let st := lines.foldl GeminiProvider.parseLine (none, {})
  let res := st.2
  if res.explanation.isEmpty then { res with explanation := response.take 200 } else res

/-! ## Named issue shapes and sample inputs used by the theorems -/

/-- The empty process environment. -/
def sampleEnv : Str → Option Str := fun _ => none

/-- A live-port probe reporting every port free. -/
def noPortInUse : Int → Bool := fun _ => false

/-- A process table resolving no owner. -/
def noProcTable : Int → Option PInfo := fun _ => none

/-- Placeholder result for unwrapping `Except` values at concrete inputs. -/
def emptyResult : AnalysisResult := { success := true }

/-- The dangling-`depends_on` issue
(`DockerComposeValidator.validate_dependencies`). -/
def dep_issue (n : Str) (dep : Yaml) (names : List Str) : Issue :=
  { type := .service_dependency, severity := .critical,
    message := txt "Service '" ++ n ++ txt "' depends on non-existent service '"
      ++ pyStr dep ++ ['\''],
    service_name := some n,
    details := [(txt "missing_dependency", .y dep), (txt "available_services", .sl names)] }

/-- The dangling-`links` issue
(`DockerComposeValidator.validate_dependencies`). -/
def link_issue (n ls : Str) : Issue :=
  { type := .service_dependency, severity := .critical,
    message := txt "Service '" ++ n ++ txt "' links to non-existent service '" ++ ls ++ ['\''],
    service_name := some n,
    details := [(txt "missing_link", .s ls)] }

/-- The cross-service duplicate-host-port issue (`PortValidator.validate`). -/
def port_dup_issue (owner name : Str) (p : Int) : Issue :=
  { type := .port_conflict, severity := .critical,
    message := txt "Port " ++ intToStr p ++ txt " is used by multiple services: '"
      ++ owner ++ txt "' and '" ++ name ++ ['\''],
    service_name := some name,
    details := [(txt "port", .i p), (txt "conflicting_service", .s owner)] }

/-- A Compose run on a missing file (used to instantiate the orchestrator
theorems at a concrete input). -/
def missingFileRun : AnalysisResult :=
  (analyze_docker_compose (txt "docker-compose.yml") sampleEnv noPortInUse noProcTable
    none .missingFile).toOption.getD emptyResult

/-- A NodePort Service resource whose `nodePort` is the quoted YAML string
`"30080"` — truthy, so it passes the NodePort bookkeeping unchanged. -/
def nodePortDoc (n : Str) : Yaml :=
  .dict [(txt "kind", .str (txt "Service")),
         (txt "metadata", .dict [(txt "name", .str n)]),
         (txt "spec", .dict [(txt "type", .str (txt "NodePort")),
                             (txt "ports", .list [.dict [(txt "nodePort", .str (txt "30080")),
                                                         (txt "port", .int 8080)]])])]

/-- The PORT_CONFLICT issue `validate_services` emits for two Services both
declaring the quoted `nodePort: "30080"`: its `port` detail is the STRING
`30080`, not an int. -/
def quotedNodePortConflict : Issue :=
  { type := .port_conflict, severity := .critical,
    message := txt "NodePort 30080 is used by multiple services: 'svc1' and 'svc2'",
    service_name := some (txt "svc2"),
    details := [(txt "port", .y (.str (txt "30080"))),
                (txt "namespace", .y (.str (txt "default"))),
                (txt "conflicting_service", .y (.str (txt "svc1")))] }

/-! ## Helper lemmas -/

theorem except_bind_ok {α β : Type} {x : Except Str α} {f : α → Except Str β} {b : β} :
    (x >>= f) = .ok b ↔ ∃ a, x = .ok a ∧ f a = .ok b := by
  cases x <;> simp [Bind.bind, Except.bind]

theorem mapFixes_ok {f : Issue → Except Str Fix} :
    ∀ {l : List Issue} {out : List Fix}, mapFixes f l = .ok out →
      out.length = l.length
      ∧ ∀ i (hi : i < l.length) (hf : i < out.length),
          f (l.get ⟨i, hi⟩) = .ok (out.get ⟨i, hf⟩) := by
  intro l
  induction l with
  | nil =>
    intro out h
    simp [mapFixes] at h
    subst h
    exact ⟨rfl, fun i hi hf => absurd hi (by simp)⟩
  | cons a rest ih =>
    intro out h
    simp only [mapFixes] at h
    rw [except_bind_ok] at h
    obtain ⟨fx, hfx, h⟩ := h
    rw [except_bind_ok] at h
    obtain ⟨more, hmore, h⟩ := h
    simp [pure, Except.pure] at h
    subst h
    obtain ⟨ihlen, ihget⟩ := ih hmore
    refine ⟨by simp [ihlen], ?_⟩
    intro i hi hf
    match i with
    | 0 => simpa using hfx
    | Nat.succ j =>
      simp only [List.get]
      exact ihget j (by simpa using hi) (by simpa using hf)

theorem success_flag_iff (l : List Issue) :
    (((l.filter (fun i => i.severity == Severity.critical)).length == 0) = true)
    ↔ ¬ ∃ i ∈ l, i.severity = Severity.critical := by
  rw [Nat.beq_eq_true_eq, List.length_eq_zero, List.filter_eq_nil_iff]
  constructor
  · intro h ⟨i, hi, hcrit⟩
    exact absurd (by simpa using hcrit) (by simpa using h i hi)
  · intro h i hi
    simp only [beq_iff_eq]
    exact fun hc => h ⟨i, hi, hc⟩

theorem take200_ne_nil {r : Str} (h : r ≠ []) : r.take 200 ≠ [] := by
  cases r with
  | nil => exact absurd rfl h
  | cons a l => simp [List.take]

/-! ## C8: AI response parsing and the explanation fallback -/

/-- C8 counterexample: the claim says the parsed explanation is non-empty
for every response string, but the empty response yields an empty
explanation in both providers (the `response[:200]` fallback is itself
empty). -/
theorem c8_counterexample :
    (GroqProvider.parse_response (txt "")).explanation = []
    ∧ (GeminiProvider.parse_response (txt "")).explanation = [] :=
  ⟨rfl, rfl⟩

/-- C8 (amended): for every non-empty response string, both providers'
`_parse_response` return a non-empty explanation — if section parsing
populated nothing, the first 200 characters of the raw response are used,
which are non-empty exactly when the response is. -/
theorem c8_explanation_nonempty (r : Str) (h : r ≠ []) :
    (GroqProvider.parse_response r).explanation ≠ []
    ∧ (GeminiProvider.parse_response r).explanation ≠ [] := by
  constructor
  · simp only [GroqProvider.parse_response]
    split
    · simpa using take200_ne_nil h
    · rename_i hne
      intro heq
      exact hne (by rw [heq]; rfl)
  · simp only [GeminiProvider.parse_response]
    split
    · simpa using take200_ne_nil h
    · rename_i hne
      intro heq
      exact hne (by rw [heq]; rfl)

/-- C8 witness: the amended theorem applied at the one-character response. -/
theorem c8_witness :
    (GroqProvider.parse_response (txt "x")).explanation ≠ []
    ∧ (GeminiProvider.parse_response (txt "x")).explanation ≠ [] :=
  c8_explanation_nonempty (txt "x") (by decide)

theorem analyze_docker_compose_ok {fp : Str} {env : Str → Option Str}
    {portInUse : Int → Bool} {procOf : Int → Option PInfo}
    {ai : Option (Issue → Option AiResult)} {input : ComposeInput} {r : AnalysisResult}
    (h : analyze_docker_compose fp env portInUse procOf ai input = .ok r) :
    mapFixes (fixForCompose ai) r.issues = .ok r.fixes
    ∧ r.success = ((r.issues.filter (fun i => i.severity == Severity.critical)).length == 0)
    ∧ r.warnings = [] := by
  simp only [analyze_docker_compose] at h
  rw [except_bind_ok] at h
  obtain ⟨portIssues, hx1, h⟩ := h
  rw [except_bind_ok] at h
  obtain ⟨imgIssues, hx2, h⟩ := h
  rw [except_bind_ok] at h
  obtain ⟨depIssues, hx3, h⟩ := h
  rw [except_bind_ok] at h
  obtain ⟨volIssues, hx4, h⟩ := h
  rw [except_bind_ok] at h
  obtain ⟨netIssues, hx5, h⟩ := h
  rw [except_bind_ok] at h
  obtain ⟨rlIssues, hx6, h⟩ := h
  rw [except_bind_ok] at h
  obtain ⟨fixes, hfix, h⟩ := h
  injection h with h
  subst h
  exact ⟨hfix, rfl, rfl⟩

theorem k8sCore_ok {ai : Option (Issue → Option AiResult)} {resources : List Yaml}
    {r : AnalysisResult} (h : k8sCore ai resources = .ok r) :
    mapFixes (fixForK8s ai) r.issues = .ok r.fixes
    ∧ r.success = ((r.issues.filter (fun i => i.severity == Severity.critical)).length == 0)
    ∧ r.warnings = [] := by
  simp only [k8sCore] at h
  rw [except_bind_ok] at h
  obtain ⟨svcIssues, hx1, h⟩ := h
  rw [except_bind_ok] at h
  obtain ⟨depIssues, hx2, h⟩ := h
  rw [except_bind_ok] at h
  obtain ⟨secIssues, hx3, h⟩ := h
  rw [except_bind_ok] at h
  obtain ⟨probeIssues, hx4, h⟩ := h
  rw [except_bind_ok] at h
  obtain ⟨labelIssues, hx5, h⟩ := h
  rw [except_bind_ok] at h
  obtain ⟨fixes, hfix, h⟩ := h
  injection h with h
  subst h
  exact ⟨hfix, rfl, rfl⟩

/-! ## C1: issue/fix index alignment -/

/-- C1 counterexample: the Kubernetes file-not-found error path returns one
issue and an empty fixes list, so `len(issues) == len(fixes)` fails on a
pipeline error path, contrary to the claim's "including all error paths". -/
theorem c1_counterexample :
    (analyze_kubernetes_manifest (txt "deployment.yaml") none .fileNotFound).issues.length = 1
    ∧ (analyze_kubernetes_manifest (txt "deployment.yaml") none .fileNotFound).fixes.length = 0
    ∧ (1 : Nat) ≠ 0 :=
  ⟨rfl, rfl, by decide⟩

/-- C1 (amended): index alignment (`len(fixes) = len(issues)`, and
`fixes[i]` is the fix generated for `issues[i]`) holds for every result of
the Compose path and for every result of the Kubernetes validated path
(`k8sCore`); the Kubernetes error paths instead return one CRITICAL issue
with an empty fixes list. -/
theorem c1_index_alignment :
    (∀ fp env portInUse procOf ai input r,
      analyze_docker_compose fp env portInUse procOf ai input = .ok r →
      r.fixes.length = r.issues.length
      ∧ ∀ i (hi : i < r.issues.length) (hf : i < r.fixes.length),
          fixForCompose ai (r.issues.get ⟨i, hi⟩) = .ok (r.fixes.get ⟨i, hf⟩))
    ∧ (∀ ai resources r,
      k8sCore ai resources = .ok r →
      r.fixes.length = r.issues.length
      ∧ ∀ i (hi : i < r.issues.length) (hf : i < r.fixes.length),
          fixForK8s ai (r.issues.get ⟨i, hi⟩) = .ok (r.fixes.get ⟨i, hf⟩)) := by
  constructor
  · intro fp env portInUse procOf ai input r h
    obtain ⟨hfix, -, -⟩ := analyze_docker_compose_ok h
    obtain ⟨hlen, hget⟩ := mapFixes_ok hfix
    exact ⟨hlen, hget⟩
  · intro ai resources r h
    obtain ⟨hfix, -, -⟩ := k8sCore_ok h
    obtain ⟨hlen, hget⟩ := mapFixes_ok hfix
    exact ⟨hlen, hget⟩

/-- C1 witness: the Compose conjunct applied to the missing-file run. -/
theorem c1_witness : missingFileRun.fixes.length = missingFileRun.issues.length := by
  have h : analyze_docker_compose (txt "docker-compose.yml") sampleEnv noPortInUse
      noProcTable none .missingFile = .ok missingFileRun := rfl
  exact (c1_index_alignment.1 _ _ _ _ _ _ _ h).1

/-! ## C2: success iff no CRITICAL issue -/

/-- C2: on every `AnalysisResult` the pipeline produces — the Compose path
(whenever it returns) and every Kubernetes path, error paths included —
`success` is true iff no CRITICAL issue is present in `issues`. -/
theorem c2_success_iff_no_critical :
    (∀ fp env portInUse procOf ai input r,
      analyze_docker_compose fp env portInUse procOf ai input = .ok r →
      (r.success = true ↔ ¬ ∃ i ∈ r.issues, i.severity = Severity.critical))
    ∧ (∀ fp ai input,
      ((analyze_kubernetes_manifest fp ai input).success = true
        ↔ ¬ ∃ i ∈ (analyze_kubernetes_manifest fp ai input).issues,
            i.severity = Severity.critical)) := by
  constructor
  · intro fp env portInUse procOf ai input r h
    obtain ⟨-, hsucc, -⟩ := analyze_docker_compose_ok h
    rw [hsucc]
    exact success_flag_iff r.issues
  · intro fp ai input
    cases input with
    | fileNotFound => simp [analyze_kubernetes_manifest]
    | yamlError m => simp [analyze_kubernetes_manifest]
    | otherError m => simp [analyze_kubernetes_manifest]
    | docs ds =>
      simp only [analyze_kubernetes_manifest]
      split
      · simp
      · cases hk : k8sCore ai (ds.filter yTruthy) with
        | ok r =>
          simp only [hk]
          obtain ⟨-, hsucc, -⟩ := k8sCore_ok hk
          rw [hsucc]
          exact success_flag_iff r.issues
        | error e => simp [hk]

/-- C2 witness: the Compose conjunct applied to the missing-file run
(one CRITICAL issue, `success = false`). -/
theorem c2_witness :
    missingFileRun.success = true
      ↔ ¬ ∃ i ∈ missingFileRun.issues, i.severity = Severity.critical := by
  have h : analyze_docker_compose (txt "docker-compose.yml") sampleEnv noPortInUse
      noProcTable none .missingFile = .ok missingFileRun := rfl
  exact c2_success_iff_no_critical.1 _ _ _ _ _ _ _ h

/-! ## C4: long-form port normalization without `published` -/

/-- C4 counterexample: for a long-form port entry with only `target`, the
conflict-detection normalization `PortValidator._extract_host_port` yields
"no host-port mapping" — it does not fall back to `target` (which would be
`some 80`). -/
theorem c4_counterexample :
    PortValidator.extract_host_port (.dict [(txt "target", .int 80)]) = .ok none
    ∧ PortValidator.extract_host_port (.dict [(txt "target", .int 80)])
        ≠ .ok (some (80 : Int)) :=
  ⟨rfl, fun h => Option.noConfusion (Except.ok.inj h)⟩

/-- C4 (amended): for a long-form mapping with a `target` key and no
`published` key, the normalization used for host-port conflict detection
treats the entry as having no host-port mapping; the fall-back to `target`
exists only in the parser-side normalization `DockerComposeParser.get_ports`,
which renders `target:target` and is not consulted by the conflict check. -/
theorem c4_target_no_fallback (t : Int) (ht : t ≠ 0) :
    PortValidator.extract_host_port (.dict [(txt "target", .int t)]) = .ok none
    ∧ DockerComposeParser.get_ports
        [(txt "web", .dict [(txt "ports", .list [.dict [(txt "target", .int t)]])])]
        (txt "web")
      = .ok [intToStr t ++ ':' :: intToStr t] := by
  constructor
  · rfl
  · have hne : (txt "target" = txt "published") ↔ False := iff_false_intro (by decide)
    simp [DockerComposeParser.get_ports, yGetD, yGet, pyIter, pyStr, ht,
      Bind.bind, Except.bind, yTruthy, hne, ydFind, Except.map]

/-- C4 witness: the amended theorem at `target = 80`. -/
theorem c4_witness :
    (80 : Int) ≠ 0
    ∧ (PortValidator.extract_host_port (.dict [(txt "target", .int 80)]) = .ok none
      ∧ DockerComposeParser.get_ports
          [(txt "web", .dict [(txt "ports", .list [.dict [(txt "target", .int 80)]])])]
          (txt "web")
        = .ok [intToStr 80 ++ ':' :: intToStr 80]) :=
  ⟨by decide, c4_target_no_fallback 80 (by decide)⟩

/-! ## C3: cross-service host-port dedup -/

/-- C3: for a Compose configuration of exactly two distinct services, each
declaring one port mapping, both normalizing to the same host port `P`, and
`P` not bound on the live system, the port validator emits exactly one
PORT_CONFLICT issue; it is CRITICAL and its message contains both service
names and the port number. -/
theorem c3_port_dedup (n1 n2 : Str) (sv1 sv2 : List (Str × Yaml)) (m1 m2 : Yaml)
    (P : Int) (portInUse : Int → Bool) (procOf : Int → Option PInfo)
    (_hne : n1 ≠ n2)
    (hp1 : ydFind sv1 (txt "ports") = some (.list [m1]))
    (hp2 : ydFind sv2 (txt "ports") = some (.list [m2]))
    (he1 : PortValidator.extract_host_port m1 = .ok (some P))
    (he2 : PortValidator.extract_host_port m2 = .ok (some P))
    (hu : portInUse P = false) :
    PortValidator.validate portInUse procOf [(n1, .dict sv1), (n2, .dict sv2)]
      = .ok [port_dup_issue n1 n2 P]
    ∧ (port_dup_issue n1 n2 P).type = .port_conflict
    ∧ (port_dup_issue n1 n2 P).severity = .critical
    ∧ (∃ a b, (port_dup_issue n1 n2 P).message = a ++ n1 ++ b)
    ∧ (∃ a b, (port_dup_issue n1 n2 P).message = a ++ n2 ++ b)
    ∧ (∃ a b, (port_dup_issue n1 n2 P).message = a ++ intToStr P ++ b) := by
  refine ⟨?_, rfl, rfl,
    ⟨txt "Port " ++ intToStr P ++ txt " is used by multiple services: '",
     txt "' and '" ++ n2 ++ ['\''], by simp [port_dup_issue]⟩,
    ⟨txt "Port " ++ intToStr P ++ txt " is used by multiple services: '" ++ n1 ++ txt "' and '",
     ['\''], by simp [port_dup_issue]⟩,
    ⟨txt "Port ",
     txt " is used by multiple services: '" ++ n1 ++ txt "' and '" ++ n2 ++ ['\''],
     by simp [port_dup_issue]⟩⟩
  simp [PortValidator.validate, PortValidator.validateGo, PortValidator.processPorts,
    hp1, hp2, he1, he2, hu, plookup, pyIter, Bind.bind, Except.bind, port_dup_issue]

/-- C3 witness: two concrete services both mapping host port 8080. -/
theorem c3_witness :
    (txt "web1" : Str) ≠ txt "web2"
    ∧ noPortInUse 8080 = false
    ∧ PortValidator.validate noPortInUse noProcTable
        [(txt "web1", .dict [(txt "ports", .list [.str (txt "8080:80")])]),
         (txt "web2", .dict [(txt "ports", .list [.str (txt "8080:80")])])]
      = .ok [port_dup_issue (txt "web1") (txt "web2") 8080] :=
  ⟨by decide, rfl,
   (c3_port_dedup (txt "web1") (txt "web2")
     [(txt "ports", .list [.str (txt "8080:80")])]
     [(txt "ports", .list [.str (txt "8080:80")])]
     (.str (txt "8080:80")) (.str (txt "8080:80")) 8080 noPortInUse noProcTable
     (by decide) rfl rfl rfl rfl rfl).1⟩

/-! ## C9: a single service conflicting with itself -/

/-- C9: a single service declaring two port entries that normalize to the
same host port `P` (with `P` free on the live system) yields one CRITICAL
PORT_CONFLICT issue naming that service as both conflicting parties: it is
both the `service_name` and the `conflicting_service` detail. -/
theorem c9_self_conflict (n : Str) (sv : List (Str × Yaml)) (m1 m2 : Yaml)
    (P : Int) (portInUse : Int → Bool) (procOf : Int → Option PInfo)
    (hp : ydFind sv (txt "ports") = some (.list [m1, m2]))
    (he1 : PortValidator.extract_host_port m1 = .ok (some P))
    (he2 : PortValidator.extract_host_port m2 = .ok (some P))
    (hu : portInUse P = false) :
    PortValidator.validate portInUse procOf [(n, .dict sv)]
      = .ok [port_dup_issue n n P]
    ∧ (port_dup_issue n n P).severity = .critical
    ∧ (port_dup_issue n n P).type = .port_conflict
    ∧ (port_dup_issue n n P).service_name = some n
    ∧ dfind (port_dup_issue n n P).details (txt "conflicting_service") = some (.s n) := by
  refine ⟨?_, rfl, rfl, rfl, rfl⟩
  simp [PortValidator.validate, PortValidator.validateGo, PortValidator.processPorts,
    hp, he1, he2, hu, plookup, pyIter, Bind.bind, Except.bind, port_dup_issue]

/-- C9 witness: one concrete service declaring `8080` and `"8080:80"`. -/
theorem c9_witness :
    noPortInUse 8080 = false
    ∧ PortValidator.validate noPortInUse noProcTable
        [(txt "web", .dict [(txt "ports", .list [.int 8080, .str (txt "8080:80")])])]
      = .ok [port_dup_issue (txt "web") (txt "web") 8080] :=
  ⟨rfl,
   (c9_self_conflict (txt "web")
     [(txt "ports", .list [.int 8080, .str (txt "8080:80")])]
     (.int 8080) (.str (txt "8080:80")) 8080 noPortInUse noProcTable
     rfl rfl rfl rfl).1⟩

/-! ## C6: environment-variable resolution -/

theorem splitOnce_sep_append (d : Str) :
    ∀ NAME : Str, splitOnce (txt ":-") NAME = none →
      splitOnce (txt ":-") (NAME ++ txt ":-" ++ d) = some (NAME, d) := by
  intro NAME
  induction NAME with
  | nil =>
    intro _
    simp [splitOnce, txt, List.isPrefixOf]
  | cons c rest ih =>
    intro h
    simp only [splitOnce] at h
    split at h
    · exact absurd h (by simp)
    · rename_i hpre
      have hrest : splitOnce (txt ":-") rest = none := by
        cases hsr : splitOnce (txt ":-") rest with
        | none => rfl
        | some p => rw [hsr] at h; simp at h
      have hstep : ∀ (x : Char) (t : Str),
          (txt ":-").isPrefixOf (x :: t) = false →
          splitOnce (txt ":-") (x :: t)
            = (splitOnce (txt ":-") t).map (fun p => (x :: p.1, p.2)) := by
        intro x t hx
        simp [splitOnce, hx]
      cases rest with
      | nil =>
        have hx : (txt ":-").isPrefixOf (c :: (([] : Str) ++ txt ":-" ++ d)) = false := by
          simp [txt, List.isPrefixOf]
        rw [show (c :: ([] : Str)) ++ txt ":-" ++ d = c :: (([] : Str) ++ txt ":-" ++ d)
          from by simp only [List.cons_append]]
        rw [hstep c _ hx]
        simp [splitOnce, txt, List.isPrefixOf]
      | cons r rs =>
        have hpre2 : ∀ (x y : Char) (t : Str),
            (txt ":-").isPrefixOf (x :: y :: t) = ((':' == x) && ('-' == y)) := by
          intro x y t
          simp [txt, List.isPrefixOf]
        have hpf : ((':' == c) && ('-' == r)) = false := by
          rw [hpre2 c r rs] at hpre
          cases hb : ((':' == c) && ('-' == r)) with
          | false => rfl
          | true => exact absurd hb hpre
        have hx : (txt ":-").isPrefixOf (c :: ((r :: rs) ++ txt ":-" ++ d)) = false := by
          simp only [List.cons_append]
          rw [hpre2 c r (rs ++ txt ":-" ++ d)]
          exact hpf
        rw [show (c :: r :: rs) ++ txt ":-" ++ d = c :: ((r :: rs) ++ txt ":-" ++ d)
          from by simp only [List.cons_append]]
        rw [hstep c _ hx]
        rw [ih hrest]
        rfl

/-- C6 counterexample: a scalar exactly of the form `$\x7bNAME:-default\x7d`
whose default is the empty string is NOT substituted with the default — the
`value or config` fallback returns the original scalar unchanged (no issue
is emitted either), contradicting the claim's universal "substituted with
the literal default value". -/
theorem c6_counterexample :
    resolve_env_vars sampleEnv (.str (txt "$\x7bAPI_KEY:-\x7d"))
      = (.str (txt "$\x7bAPI_KEY:-\x7d"), [])
    ∧ txt "$\x7bAPI_KEY:-\x7d" ≠ ([] : Str) :=
  ⟨rfl, by decide⟩

/-- C6 (amended): during env resolution, a scalar exactly `$\x7bNAME\x7d`
with `NAME` unset is left unresolved and emits exactly one WARNING
MISSING_ENV_VAR issue whose details bind `variable` to `NAME`; a scalar
exactly `$\x7bNAME:-default\x7d` with `NAME` unset and a NON-EMPTY default
is replaced by the literal default with no issue; with an empty default the
scalar is left unchanged (still with no issue). -/
theorem c6_env_resolution (env : Str → Option Str) (NAME d : Str)
    (hunset : env NAME = none)
    (hplain : splitOnce (txt ":-") NAME = none) :
    (resolve_env_vars env (.str ('$' :: '\x7b' :: NAME ++ ['\x7d']))
      = (.str ('$' :: '\x7b' :: NAME ++ ['\x7d']),
         [{ type := .missing_env_var, severity := .warning,
            message := txt "Environment variable not set: " ++ NAME,
            details := [(txt "variable", .s NAME)] }]))
    ∧ (d ≠ [] →
      resolve_env_vars env (.str ('$' :: '\x7b' :: NAME ++ txt ":-" ++ d ++ ['\x7d']))
        = (.str d, []))
    ∧ (d = [] →
      resolve_env_vars env (.str ('$' :: '\x7b' :: NAME ++ txt ":-" ++ d ++ ['\x7d']))
        = (.str ('$' :: '\x7b' :: NAME ++ txt ":-" ++ d ++ ['\x7d']), [])) := by
  have hpre1 : (txt "$\x7b").isPrefixOf ('$' :: '\x7b' :: NAME ++ ['\x7d']) = true := by
    simp [txt, List.isPrefixOf]
  have hlast1 : ('$' :: '\x7b' :: NAME ++ ['\x7d']).getLast? = some '\x7d' := by
    have h2 : ('$' :: '\x7b' :: NAME ++ ['\x7d']) = ('$' :: '\x7b' :: NAME) ++ ['\x7d'] := by
      simp
    rw [h2, List.getLast?_concat]
  have hpre2 : (txt "$\x7b").isPrefixOf
      ('$' :: '\x7b' :: NAME ++ txt ":-" ++ d ++ ['\x7d']) = true := by
    simp [txt, List.isPrefixOf]
  have hlast2 : ('$' :: '\x7b' :: NAME ++ txt ":-" ++ d ++ ['\x7d']).getLast?
      = some '\x7d' := by
    have h2 : ('$' :: '\x7b' :: NAME ++ txt ":-" ++ d ++ ['\x7d'])
        = ('$' :: '\x7b' :: (NAME ++ txt ":-" ++ d)) ++ ['\x7d'] := by simp
    rw [h2, List.getLast?_concat]
  have hsplit := splitOnce_sep_append d NAME hplain
  refine ⟨?_, ?_, ?_⟩
  · simp only [resolve_env_vars]
    rw [if_pos ⟨hpre1, hlast1⟩]
    simp only [List.drop, List.append_eq, List.dropLast_concat, hplain, hunset]
  · intro hd
    simp only [resolve_env_vars]
    rw [if_pos ⟨hpre2, hlast2⟩]
    simp only [List.drop, List.append_eq, List.dropLast_concat, hsplit, hunset]
    simp [hd]
  · intro hd
    subst hd
    simp only [resolve_env_vars]
    rw [if_pos ⟨hpre2, hlast2⟩]
    simp only [List.drop, List.append_eq, List.dropLast_concat, hsplit, hunset]
    simp

/-- C6 witness: `API_KEY` unset in the empty environment, default `dev`. -/
theorem c6_witness :
    sampleEnv (txt "API_KEY") = none
    ∧ splitOnce (txt ":-") (txt "API_KEY") = none
    ∧ resolve_env_vars sampleEnv (.str ('$' :: '\x7b' :: txt "API_KEY" ++ ['\x7d']))
        = (.str ('$' :: '\x7b' :: txt "API_KEY" ++ ['\x7d']),
           [{ type := .missing_env_var, severity := .warning,
              message := txt "Environment variable not set: " ++ txt "API_KEY",
              details := [(txt "variable", .s (txt "API_KEY"))] }])
    ∧ resolve_env_vars sampleEnv
        (.str ('$' :: '\x7b' :: txt "API_KEY" ++ txt ":-" ++ txt "dev" ++ ['\x7d']))
        = (.str (txt "dev"), []) := by
  refine ⟨rfl, by decide, ?_, ?_⟩
  · exact (c6_env_resolution sampleEnv (txt "API_KEY") (txt "dev") rfl (by decide)).1
  · exact (c6_env_resolution sampleEnv (txt "API_KEY") (txt "dev") rfl (by decide)).2.1
      (by decide)

/-! ## C7: the deterministic fallback does NOT cover every emitted issue -/

/-- C7: the fallback guarantee fails on the code.  Two NodePort Services
both declaring the quoted `nodePort: "30080"` make `validate_services` emit
one CRITICAL PORT_CONFLICT whose `port` detail is a string (the truthiness
check at k8s_validator.py 161 accepts it unchanged);
`KubernetesValidator.generate_fix` then raises `TypeError` at `port + 1`
(line 258), and `analyze_kubernetes_manifest`'s catch-all discards the
analysis, returning a single "Analysis failed" issue with an EMPTY fixes
list — the PORT_CONFLICT issue is left with no Fix, contradicting the
spec's guarantee that the chain never returns no Fix for an Issue. -/
theorem c7_fix_crash_on_string_nodeport :
    KubernetesValidator.validate_services [nodePortDoc (txt "svc1"), nodePortDoc (txt "svc2")]
      = .ok [quotedNodePortConflict]
    ∧ KubernetesValidator.generate_fix quotedNodePortConflict = .error (txt "TypeError")
    ∧ analyze_kubernetes_manifest (txt "k8s.yaml") none
        (.docs [nodePortDoc (txt "svc1"), nodePortDoc (txt "svc2")])
      = { success := false,
          issues := [{ type := .invalid_yaml, severity := .critical,
                       message := txt "Analysis failed: " ++ txt "TypeError",
                       file_path := some (txt "k8s.yaml") }],
          fixes := [] }
    ∧ (analyze_kubernetes_manifest (txt "k8s.yaml") none
        (.docs [nodePortDoc (txt "svc1"), nodePortDoc (txt "svc2")])).fixes.length = 0 :=
  ⟨rfl, rfl, rfl, rfl⟩

/-! ## C10: a bare service is reported by both the loader and the image
validator -/

theorem linksCheck_mem {n : Str} {names : List Str} :
    ∀ {links : List Yaml} {out : List Issue},
      DockerComposeValidator.linksCheck n names links = .ok out →
      ∀ {ls : Str}, Yaml.str ls ∈ links →
      names.contains (takeBefore ':' ls) = false →
      link_issue n (takeBefore ':' ls) ∈ out := by
  intro links
  induction links with
  | nil =>
    intro out h ls hmem hnc
    simp at hmem
  | cons l rest ih =>
    intro out h ls hmem hnc
    rcases List.mem_cons.mp hmem with heq | htail
    · subst heq
      simp only [DockerComposeValidator.linksCheck] at h
      rw [except_bind_ok] at h
      obtain ⟨more, hmore, h⟩ := h
      injection h with h
      subst h
      simp [hnc, link_issue]
      exact Or.inl (by simpa using hnc)
    · cases l with
      | str ls0 =>
        simp only [DockerComposeValidator.linksCheck] at h
        rw [except_bind_ok] at h
        obtain ⟨more, hmore, h⟩ := h
        injection h with h
        subst h
        exact List.mem_append_right _ (ih hmore htail hnc)
      | int m => simp [DockerComposeValidator.linksCheck] at h
      | bool b => simp [DockerComposeValidator.linksCheck] at h
      | null => simp [DockerComposeValidator.linksCheck] at h
      | list xs => simp [DockerComposeValidator.linksCheck] at h
      | dict kvs => simp [DockerComposeValidator.linksCheck] at h

theorem deps_go_mem {names : List Str} :
    ∀ {services : List (Str × Yaml)} {out : List Issue},
      DockerComposeValidator.validate_dependenciesGo names services = .ok out →
      ∀ {n : Str} {sv : List (Str × Yaml)}, (n, Yaml.dict sv) ∈ services →
      ((∀ {deps : List Yaml} {dep : Yaml},
          ydFind sv (txt "depends_on") = some (.list deps) → dep ∈ deps →
          memNames names dep = false → dep_issue n dep names ∈ out)
        ∧ (∀ {kvs : List (Str × Yaml)} {k : Str},
          ydFind sv (txt "depends_on") = some (.dict kvs) → k ∈ kvs.map Prod.fst →
          memNames names (Yaml.str k) = false → dep_issue n (Yaml.str k) names ∈ out)
        ∧ (∀ {links : List Yaml} {ls : Str},
          ydFind sv (txt "links") = some (.list links) → Yaml.str ls ∈ links →
          names.contains (takeBefore ':' ls) = false →
          link_issue n (takeBefore ':' ls) ∈ out)) := by
  intro services
  induction services with
  | nil =>
    intro out h n sv hmem
    simp at hmem
  | cons a rest ih =>
    intro out h n sv hmem
    obtain ⟨k0, sv0⟩ := a
    rcases List.mem_cons.mp hmem with heq | htail
    · injection heq with hk hsv
      subst hk
      subst hsv
      simp only [DockerComposeValidator.validate_dependenciesGo] at h
      rw [except_bind_ok] at h
      obtain ⟨deps0, hdeps0, h⟩ := h
      rw [except_bind_ok] at h
      obtain ⟨links0, hlinks0, h⟩ := h
      rw [except_bind_ok] at h
      obtain ⟨linkIss, hlinkIss, h⟩ := h
      rw [except_bind_ok] at h
      obtain ⟨more, hmore, h⟩ := h
      injection h with h
      subst h
      refine ⟨?_, ?_, ?_⟩
      · intro deps dep hdo hin hnm
        rw [hdo] at hdeps0
        simp [DockerComposeValidator.dependsEntries, pyIter] at hdeps0
        subst hdeps0
        refine List.mem_append_left _ (List.mem_append_left _ ?_)
        rw [List.mem_flatMap]
        exact ⟨dep, hin, by simp [hnm, dep_issue]⟩
      · intro kvs k hdo hin hnm
        rw [hdo] at hdeps0
        simp only [Option.getD_some, DockerComposeValidator.dependsEntries] at hdeps0
        injection hdeps0 with hdeps0
        subst hdeps0
        refine List.mem_append_left _ (List.mem_append_left _ ?_)
        rw [List.mem_flatMap]
        rcases List.mem_map.mp hin with ⟨e, he, hek⟩
        refine ⟨Yaml.str k, ?_, by simp [hnm, dep_issue]⟩
        rw [List.mem_map]
        exact ⟨e, he, by rw [hek]⟩
      · intro links ls hlk hin hnc
        rw [hlk] at hlinks0
        simp [pyIter] at hlinks0
        subst hlinks0
        refine List.mem_append_left _ (List.mem_append_right _ ?_)
        exact linksCheck_mem hlinkIss hin hnc
    · cases hsv0 : sv0 with
      | dict svc0 =>
        simp only [DockerComposeValidator.validate_dependenciesGo, hsv0] at h
        rw [except_bind_ok] at h
        obtain ⟨deps0, hdeps0, h⟩ := h
        rw [except_bind_ok] at h
        obtain ⟨links0, hlinks0, h⟩ := h
        rw [except_bind_ok] at h
        obtain ⟨linkIss, hlinkIss, h⟩ := h
        rw [except_bind_ok] at h
        obtain ⟨more, hmore, h⟩ := h
        injection h with h
        subst h
        obtain ⟨p1, p2, p3⟩ := ih hmore htail
        refine ⟨?_, ?_, ?_⟩
        · intro deps dep hdo hin hnm
          exact List.mem_append_right _ (p1 hdo hin hnm)
        · intro kvs k hdo hin hnm
          exact List.mem_append_right _ (p2 hdo hin hnm)
        · intro links ls hlk hin hnc
          exact List.mem_append_right _ (p3 hlk hin hnc)
      | str s =>
        simp only [DockerComposeValidator.validate_dependenciesGo, hsv0] at h
        exact ih h htail
      | int m =>
        simp only [DockerComposeValidator.validate_dependenciesGo, hsv0] at h
        exact ih h htail
      | bool b =>
        simp only [DockerComposeValidator.validate_dependenciesGo, hsv0] at h
        exact ih h htail
      | null =>
        simp only [DockerComposeValidator.validate_dependenciesGo, hsv0] at h
        exact ih h htail
      | list xs =>
        simp only [DockerComposeValidator.validate_dependenciesGo, hsv0] at h
        exact ih h htail

/-- C5 counterexample: for a dangling `links` reference the emitted CRITICAL
SERVICE_DEPENDENCY issue's details contain only `missing_link` — they do NOT
include the set of available service names, contrary to the claim that every
such issue's details include the full set of declared names. -/
theorem c5_counterexample :
    DockerComposeValidator.validate_dependencies
      [(txt "web", .dict [(txt "image", .str (txt "nginx:1")),
                          (txt "links", .list [.str (txt "ghost:g")])])]
      = .ok [link_issue (txt "web") (txt "ghost")]
    ∧ dfind (link_issue (txt "web") (txt "ghost")).details (txt "available_services") = none :=
  ⟨rfl, rfl⟩

/-- C5 (amended): every name in a service's `depends_on` (list or mapping
form) that is not a declared service name yields a CRITICAL
SERVICE_DEPENDENCY issue whose `available_services` detail lists the
declared service names (the keys of the services mapping, which are exactly
the members of the `set` the source stores); every dangling `links`
reference yields a CRITICAL SERVICE_DEPENDENCY issue whose details carry
only `missing_link` — no `available_services` key. -/
theorem c5_dependency_issues :
    (∀ (services : List (Str × Yaml)) (out : List Issue) (n : Str)
        (sv : List (Str × Yaml)) (deps : List Yaml) (dep : Yaml),
      DockerComposeValidator.validate_dependencies services = .ok out →
      (n, Yaml.dict sv) ∈ services →
      ydFind sv (txt "depends_on") = some (.list deps) → dep ∈ deps →
      memNames (services.map Prod.fst) dep = false →
      dep_issue n dep (services.map Prod.fst) ∈ out
      ∧ dfind (dep_issue n dep (services.map Prod.fst)).details (txt "available_services")
          = some (.sl (services.map Prod.fst))
      ∧ (dep_issue n dep (services.map Prod.fst)).severity = .critical)
    ∧ (∀ (services : List (Str × Yaml)) (out : List Issue) (n : Str)
        (sv kvs : List (Str × Yaml)) (k : Str),
      DockerComposeValidator.validate_dependencies services = .ok out →
      (n, Yaml.dict sv) ∈ services →
      ydFind sv (txt "depends_on") = some (.dict kvs) → k ∈ kvs.map Prod.fst →
      memNames (services.map Prod.fst) (Yaml.str k) = false →
      dep_issue n (Yaml.str k) (services.map Prod.fst) ∈ out)
    ∧ (∀ (services : List (Str × Yaml)) (out : List Issue) (n : Str)
        (sv : List (Str × Yaml)) (links : List Yaml) (ls : Str),
      DockerComposeValidator.validate_dependencies services = .ok out →
      (n, Yaml.dict sv) ∈ services →
      ydFind sv (txt "links") = some (.list links) → Yaml.str ls ∈ links →
      (services.map Prod.fst).contains (takeBefore ':' ls) = false →
      link_issue n (takeBefore ':' ls) ∈ out
      ∧ dfind (link_issue n (takeBefore ':' ls)).details (txt "available_services") = none
      ∧ (link_issue n (takeBefore ':' ls)).severity = .critical) := by
  refine ⟨?_, ?_, ?_⟩
  · intro services out n sv deps dep hok hmem hdo hin hnm
    exact ⟨(deps_go_mem hok hmem).1 hdo hin hnm, rfl, rfl⟩
  · intro services out n sv kvs k hok hmem hdo hin hnm
    exact (deps_go_mem hok hmem).2.1 hdo hin hnm
  · intro services out n sv links ls hok hmem hlk hin hnc
    exact ⟨(deps_go_mem hok hmem).2.2 hlk hin hnc, rfl, rfl⟩

/-- C5 witness: `depends_on: (ghost)` with `ghost` undeclared in a
single-service configuration. -/
theorem c5_witness :
    dep_issue (txt "web") (Yaml.str (txt "ghost")) [txt "web"]
      ∈ [dep_issue (txt "web") (Yaml.str (txt "ghost")) [txt "web"]]
    ∧ dfind (dep_issue (txt "web") (Yaml.str (txt "ghost")) [txt "web"]).details
        (txt "available_services") = some (.sl [txt "web"]) := by
  have h := (c5_dependency_issues.1
    [(txt "web", .dict [(txt "image", .str (txt "nginx:1")),
                        (txt "depends_on", .list [.str (txt "ghost")])])]
    [dep_issue (txt "web") (Yaml.str (txt "ghost")) [txt "web"]]
    (txt "web") [(txt "image", .str (txt "nginx:1")),
                 (txt "depends_on", .list [.str (txt "ghost")])]
    [.str (txt "ghost")] (.str (txt "ghost"))
    rfl (List.Mem.head _) rfl (List.Mem.head _) rfl)
  exact ⟨h.1, h.2.1⟩

end CheckDK
